import Mathlib

/-!
Verification of the MonVoyage conversation/orchestration engine.

This file gives a shallow embedding, in Lean 4, of the Python code under
`backend/` that the specification describes: the conversation phase state
machine (`services/conversation_service.py`), the regex-based preference
extractor and the enrichment fan-out (`services/itinerary_orchestrator.py`),
the date-field calculator (`services/nlp_extraction_service.py`), the pace
parameters (`config/settings.py`), the feasibility / database-only validators
(`services/itinerary_service.py`) and the `TripPreferences` dataclass
(`models/trip_preferences.py`).

Modelling conventions:
- Python `str` is Lean `String`; character-level work uses `List Char`.
  `str.lower()` is modelled by `Char.toLower` (all relevant text is ASCII).
- Python `int` is `Int`, Python `float` is `Rat` (every float literal in the
  modelled code is exact in decimal).
- Python exceptions are modelled with `Except PyErr`; a function that cannot
  raise returns its value directly.
- `asyncio.gather(..., return_exceptions=True)` is modelled as a join over
  the three settled outcomes of its argument coroutines: each coroutine's
  outcome (value or raised exception) is a parameter of the join.
- The two LLM backends and the external collaborators (weather, venue DB,
  booking, routing) are oracles: their outcomes are `Except`-valued
  parameters of the embedded functions.
- Python regular expressions are embedded either as Brzozowski-derivative
  matchers (for pure acceptance tests) or as hand-rolled positional parsers
  that mirror the backtracking order of the Python `re` engine (for
  patterns whose capture groups the code uses).
-/

namespace MonVoyage

/-- Python exception kinds that the embedded code can raise. -/
inductive PyErr where
  | typeError : PyErr
  | runtimeError : PyErr
  | exception : PyErr
deriving Repr, DecidableEq

/-! ## Character and string utilities -/

/-- The apostrophe character (U+0027). -/
def apos : Char := Char.ofNat 39

/-- Lowercase every character of a string, modelling Python `str.lower()`
on the ASCII text handled by this code base. -/
def strLower (s : String) : String := String.mk (s.toList.map Char.toLower)

/-- Python `\s` character class (ASCII part, which is all this code meets). -/
def isPySpace (c : Char) : Bool :=
  c = ' ' || c = '\t' || c = '\n' || c = '\r' ||
  c = Char.ofNat 11 || c = Char.ofNat 12

/-- Python `str.strip()`. -/
def pyStrip (s : String) : String :=
  String.mk (((s.toList.dropWhile isPySpace).reverse.dropWhile isPySpace).reverse)

/-- Whether `needle` is a leading segment of `hay`. -/
def startsWithL : List Char → List Char → Bool
  | _, [] => true
  | [], _ :: _ => false
  | h :: hs, n :: ns => h = n && startsWithL hs ns

/-- Whether `needle` occurs contiguously inside `hay`; models Python
`needle in hay` on strings. -/
def hasSub : List Char → List Char → Bool
  | [], needle => startsWithL [] needle
  | h :: t, needle => startsWithL (h :: t) needle || hasSub t needle

/-! ## Brzozowski-derivative regular expressions

Used for the patterns the code only tests for acceptance
(`_AFFIRMATIVE_PATTERNS` with `re.match` and a final `$`, which on a
stripped input is full-string acceptance). -/

/-- Regular expressions over characters; `cls` is a character class. -/
inductive RE where
  | emp : RE
  | eps : RE
  | cls : (Char → Bool) → RE
  | alt : RE → RE → RE
  | cat : RE → RE → RE
  | star : RE → RE

/-- Whether the regular expression accepts the empty string. -/
def RE.nullable : RE → Bool
  | .emp => false
  | .eps => true
  | .cls _ => false
  | .alt a b => a.nullable || b.nullable
  | .cat a b => a.nullable && b.nullable
  | .star _ => true

/-- Brzozowski derivative of a regular expression by one character. -/
def RE.deriv : RE → Char → RE
  | .emp, _ => .emp
  | .eps, _ => .emp
  | .cls p, c => if p c then .eps else .emp
  | .alt a b, c => .alt (a.deriv c) (b.deriv c)
  | .cat a b, c =>
      if a.nullable then .alt (.cat (a.deriv c) b) (b.deriv c)
      else .cat (a.deriv c) b
  | .star a, c => .cat (a.deriv c) (.star a)

/-- Whether the regular expression accepts exactly the given character list. -/
def RE.fullMatch (r : RE) : List Char → Bool
  | [] => r.nullable
  | c :: cs => (r.deriv c).fullMatch cs

/-- Literal string as a regular expression. -/
def reStr (s : String) : RE :=
  s.toList.foldr (fun c r => .cat (.cls (fun d => d = c)) r) .eps

/-- Sequence of regular expressions. -/
def reSeq (l : List RE) : RE := l.foldr .cat .eps

/-- Ordered alternation of regular expressions. -/
def reAlts (l : List RE) : RE := l.foldr .alt .emp

/-- Python `\s*`: any amount of whitespace. -/
def reWs : RE := .star (.cls isPySpace)

/-- Optional regular expression (`r?`). -/
def reOpt (r : RE) : RE := .alt r .eps

/-! ## Conversation service: confirmation gate
Source: `backend/services/conversation_service.py`. -/

/-- Message of the transcript: `{role, content}`. -/
structure Message where
  role : String
  content : String
deriving Repr, DecidableEq

/-- The alternation inside `_AFFIRMATIVE_PATTERNS`
(`conversation_service.py` lines 259-266), alternatives in source order.
The pattern is compiled with `re.IGNORECASE`; this is modelled by matching
the lowercased input against lowercase literals. -/
def affirmativeCore : RE := reAlts [
  reSeq [reStr "yes", reWs, reOpt (reStr ","), reWs, reStr "please"],
  reStr "yes",
  reStr "yeah",
  reStr "yep",
  reStr "yup",
  reStr "sure",
  reSeq [reStr "go", reWs, reStr "ahead"],
  reSeq [reStr "please", reWs, reStr "do"],
  reSeq [reStr "let", reOpt (.cls (fun d => d = apos)), reOpt (reStr "s"),
         reWs, reStr "do", reWs, reStr "it"],
  reSeq [reStr "let", reOpt (.cls (fun d => d = apos)), reOpt (reStr "s"),
         reWs, reStr "go"],
  reStr "absolutely",
  reStr "ok",
  reStr "okay",
  reSeq [reStr "sounds", reWs, reStr "good"],
  reSeq [reStr "generate", reWs, reStr "it"],
  reStr "generate",
  reSeq [reStr "do", reWs, reStr "it"],
  reSeq [reStr "for", reWs, reStr "sure"],
  reStr "definitely",
  reSeq [reStr "of", reWs, reStr "course"],
  reSeq [reStr "yes", reWs, reOpt (reStr ","), reWs, reStr "generate",
         reWs, reStr "it"],
  reStr "please"]

/-- The full `_AFFIRMATIVE_PATTERNS` regex
`^\s*( ... )[.!]?\s*$`; with `re.match` and the final `$` this is
acceptance of the whole string. -/
def affirmativeRE : RE :=
  reSeq [reWs, affirmativeCore, reOpt (.cls (fun c => c = '.' || c = '!')), reWs]

/-- Whether a user input matches the affirmative-response pattern. -/
def matchesAffirmative (s : String) : Bool :=
  affirmativeRE.fullMatch (strLower s).toList

/-- The `_CONFIRMATION_MARKER` constant (`conversation_service.py` line 269). -/
def confirmationMarker : String := "generate your itinerary"

/-- Case-insensitive containment of the confirmation marker, modelling
`_CONFIRMATION_MARKER.lower() in content.lower()`. -/
def containsMarker (content : String) : Bool :=
  hasSub (strLower content).toList (strLower confirmationMarker).toList

/-- Content of the last assistant message of the transcript, if any;
models the `for msg in reversed(messages)` loop in `_user_is_confirming`
(assistant returns, every other role continues). -/
def lastAssistantContent : List Message → Option String
  | [] => none
  | m :: rest =>
      match lastAssistantContent rest with
      | some c => some c
      | none => if m.role = "assistant" then some m.content else none

/-- Embedding of `ConversationService._user_is_confirming`
(`conversation_service.py` lines 629-649). -/
def user_is_confirming (messages : List Message) (userInput : Option String) :
    Bool :=
  match userInput with
  | none => false
  | some s =>
      if s = "" then false
      else if ¬ matchesAffirmative (pyStrip s) then false
      else
        match lastAssistantContent messages with
        | some c => containsMarker c
        | none => false

/-! ## Calendar arithmetic

Python `datetime.strptime(_, "%Y-%m-%d")`, date subtraction (`.days`) and
`timedelta` addition are modelled with the standard civil-calendar
day-number conversions (proleptic Gregorian calendar, as used by
`datetime.date`). -/

/-- Gregorian leap-year rule. -/
def isLeapYear (y : Int) : Bool :=
  (y % 4 = 0 && y % 100 ≠ 0) || y % 400 = 0

/-- Number of days of month `m` of year `y`. -/
def daysInMonth (y m : Int) : Int :=
  if m = 2 then (if isLeapYear y then 29 else 28)
  else if m = 4 || m = 6 || m = 9 || m = 11 then 30
  else 31

/-- Days since 1970-01-01 of the civil date `(y, m, d)`. -/
def daysFromCivil : Int × Int × Int → Int
  | (y0, m, d) =>
    let y := if m ≤ 2 then y0 - 1 else y0
    let era := Int.fdiv y 400
    let yoe := y - era * 400
    let mp := m + (if m > 2 then -3 else 9)
    let doy := Int.fdiv (153 * mp + 2) 5 + d - 1
    let doe := yoe * 365 + Int.fdiv yoe 4 - Int.fdiv yoe 100 + doy
    era * 146097 + doe - 719468

/-- Civil date `(y, m, d)` of the day that is `z` days after 1970-01-01. -/
def civilFromDays (z0 : Int) : Int × Int × Int :=
  let z := z0 + 719468
  let era := Int.fdiv z 146097
  let doe := z - era * 146097
  let yoe :=
    Int.fdiv (doe - Int.fdiv doe 1460 + Int.fdiv doe 36524 - Int.fdiv doe 146096) 365
  let y := yoe + era * 400
  let doy := doe - (365 * yoe + Int.fdiv yoe 4 - Int.fdiv yoe 100)
  let mp := Int.fdiv (5 * doy + 2) 153
  let d := doy - Int.fdiv (153 * mp + 2) 5 + 1
  let m := mp + (if mp < 10 then 3 else -9)
  (if m ≤ 2 then y + 1 else y, m, d)

/-- Numeric value of a decimal digit character. -/
def digitVal (c : Char) : Int := Int.ofNat c.toNat - 48

/-- Value of a list of decimal digit characters. -/
def digitsVal (l : List Char) : Int :=
  l.foldl (fun acc c => acc * 10 + digitVal c) 0

/-- Embedding of `datetime.strptime(s, "%Y-%m-%d")` followed by the
`datetime` range validation: exactly `YYYY-MM-DD` with a valid calendar
date, year 1..9999.  (Python `%m`/`%d` also accept single digits, but every
date string reaching the modelled call sites is either zero-padded by
construction or guarded by a `len(...) == 10` check, where 4+2+2 digits is
the only possible shape.) -/
def parseYMD (s : String) : Option (Int × Int × Int) :=
  match s.toList with
  | [y1, y2, y3, y4, h1, mo1, mo2, h2, d1, d2] =>
      if h1 = '-' && h2 = '-' &&
         ([y1, y2, y3, y4, mo1, mo2, d1, d2].all Char.isDigit) then
        let y := digitsVal [y1, y2, y3, y4]
        let m := digitsVal [mo1, mo2]
        let d := digitsVal [d1, d2]
        if 1 ≤ y && y ≤ 9999 && 1 ≤ m && m ≤ 12 && 1 ≤ d && d ≤ daysInMonth y m
        then some (y, m, d) else none
      else none
  | _ => none

/-- Zero-pad a nonnegative integer to two digits. -/
def pad2 (n : Int) : String :=
  if n < 10 then "0" ++ toString n else toString n

/-- Zero-pad a nonnegative integer to four digits. -/
def pad4 (n : Int) : String :=
  if n < 10 then "000" ++ toString n
  else if n < 100 then "00" ++ toString n
  else if n < 1000 then "0" ++ toString n
  else toString n

/-- Embedding of `date.strftime("%Y-%m-%d")`. -/
def formatYMD : Int × Int × Int → String
  | (y, m, d) => pad4 y ++ "-" ++ pad2 m ++ "-" ++ pad2 d

/-! ## TripPreferences dataclass
Source: `backend/models/trip_preferences.py` lines 10-33. -/

/-- The `TripPreferences` dataclass fields, with the source defaults
(`interests = None` is normalised to `[]` by `__post_init__`). -/
structure TripPreferences where
  city : Option String := none
  country : Option String := none
  start_date : Option String := none
  end_date : Option String := none
  duration_days : Option Int := none
  interests : List String := []
  pace : Option String := none
  location_preference : Option String := none
  needs_flight : Option Bool := none
  needs_airbnb : Option Bool := none
  source_location : Option String := none
deriving Repr, DecidableEq

/-- The declared field names of the `TripPreferences` dataclass, in source
order (`trip_preferences.py` lines 15-33). -/
def tripPreferencesFieldNames : List String :=
  ["city", "country", "start_date", "end_date", "duration_days",
   "interests", "pace", "location_preference",
   "needs_flight", "needs_airbnb", "source_location"]

/-- A Python dataclass `__init__` raises `TypeError` when called with a
keyword argument that is not a declared field.  `kwargs` is the list of
keyword names used at a construction site. -/
def dataclassInitCheck (kwargs : List String) : Except PyErr Unit :=
  if kwargs.all (fun k => tripPreferencesFieldNames.contains k) then .ok ()
  else .error .typeError

/-- Python truthiness of an optional string (`None` and `""` are falsy). -/
def truthyStr : Option String → Bool
  | none => false
  | some s => s ≠ ""

/-- Python truthiness of an optional int (`None` and `0` are falsy). -/
def truthyInt : Option Int → Bool
  | none => false
  | some n => n ≠ 0

/-! ## Date-field calculator
Source: `backend/services/nlp_extraction_service.py`,
`NLPExtractionService._calculate_date_fields` (lines 578-633). -/

/-- Embedding of `_calculate_date_fields`.  Rule 1 derives `duration_days`
from both endpoint dates (inclusive, `+ 1`); rule 2 derives `end_date` from
`start_date + (duration_days − 1)`; rule 3 derives `start_date` from
`end_date − (duration_days − 1)`.  A `timedelta` result outside the
`datetime` year range 1..9999 raises `OverflowError` in Python, which the
enclosing `except Exception` turns into returning the preferences
unchanged; the range guards model that. -/
def calculate_date_fields (p : TripPreferences) : TripPreferences :=
  if truthyStr p.start_date && truthyStr p.end_date &&
     !truthyInt p.duration_days then
    match p.start_date, p.end_date with
    | some sd, some ed =>
        if sd.length = 10 && ed.length = 10 then
          match parseYMD sd, parseYMD ed with
          | some s, some e =>
              let dur := daysFromCivil e - daysFromCivil s + 1
              if dur > 0 then { p with duration_days := some dur } else p
          | _, _ => p
        else p
    | _, _ => p
  else if truthyStr p.start_date && truthyInt p.duration_days &&
          !truthyStr p.end_date then
    match p.start_date, p.duration_days with
    | some sd, some n =>
        if sd.length = 10 then
          match parseYMD sd with
          | some s =>
              let e := civilFromDays (daysFromCivil s + (n - 1))
              if 1 ≤ e.1 && e.1 ≤ 9999 then
                { p with end_date := some (formatYMD e) }
              else p
          | none => p
        else p
    | _, _ => p
  else if truthyStr p.end_date && truthyInt p.duration_days &&
          !truthyStr p.start_date then
    match p.end_date, p.duration_days with
    | some ed, some n =>
        if ed.length = 10 then
          match parseYMD ed with
          | some e =>
              let s := civilFromDays (daysFromCivil e - (n - 1))
              if 1 ≤ s.1 && s.1 ≤ 9999 then
                { p with start_date := some (formatYMD s) }
              else p
          | none => p
        else p
    | _, _ => p
  else p

/-- Embedding of the duration derivation inside
`ItineraryOrchestrator._extract_preferences_from_history`
(`itinerary_orchestrator.py` lines 390-398): if both date strings are
present and parse, `duration_days = (end − start).days + 1`. -/
def deriveDurationDays (startDate endDate : Option String) : Option Int :=
  match startDate, endDate with
  | some sd, some ed =>
      if sd ≠ "" && ed ≠ "" then
        match parseYMD sd, parseYMD ed with
        | some s, some e => some (daysFromCivil e - daysFromCivil s + 1)
        | _, _ => none
      else none
  | _, _ => none

/-! ## Positional parser utilities for the extraction regexes

Each Python regex whose capture groups the code uses is embedded as a
hand-rolled matcher over `List Char`.  Greedy quantifiers are modelled by
candidate lists in priority order (longest consumption first), alternations
by candidate lists in source order, and `re.search` by trying every start
position left to right; `List.findSome?` over those lists reproduces the
backtracking order of the Python `re` engine. -/

/-- Python word character (`\w` / `\b` boundary class, ASCII part). -/
def isWordChar (c : Char) : Bool :=
  c.isAlpha && c.toNat < 128 || c.isDigit || c = '_'

/-- ASCII uppercase letter (`[A-Z]`). -/
def isUpperAZ (c : Char) : Bool := 'A' ≤ c && c ≤ 'Z'

/-- ASCII lowercase letter (`[a-z]`). -/
def isLowerAZ (c : Char) : Bool := 'a' ≤ c && c ≤ 'z'

/-- ASCII letter (`[A-Za-z]`). -/
def isAlphaAZ (c : Char) : Bool := isUpperAZ c || isLowerAZ c

/-- Candidates for `\s*`: pairs (consumed, rest), longest consumption
first (greedy). -/
def wsTake : List Char → List (List Char × List Char)
  | [] => [([], [])]
  | c :: t =>
      if isPySpace c then
        ((wsTake t).map (fun p => (c :: p.1, p.2))) ++ [([], c :: t)]
      else [([], c :: t)]

/-- Candidates for `\s+` (at least one whitespace character), greedy. -/
def ws1Take (l : List Char) : List (List Char × List Char) :=
  match l with
  | [] => []
  | c :: t => if isPySpace c then (wsTake t).map (fun p => (c :: p.1, p.2)) else []

/-- Candidates for a greedy run of characters of a class, at least one
(`[..]+`), longest first. -/
def classTake (p : Char → Bool) : List Char → List (List Char × List Char)
  | [] => []
  | c :: t =>
      if p c then
        ((classTake p t).map (fun q => (c :: q.1, q.2))) ++ [([c], t)]
      else []

/-- Candidates for `\d{1,2}` (greedy: two digits first). -/
def digitsTake12 (l : List Char) : List (List Char × List Char) :=
  match l with
  | a :: b :: t =>
      if a.isDigit && b.isDigit then [([a, b], t), ([a], b :: t)]
      else if a.isDigit then [([a], b :: t)]
      else []
  | [a] => if a.isDigit then [([a], [])] else []
  | [] => []

/-- Exactly `\d{4}`. -/
def digits4 (l : List Char) : Option (List Char × List Char) :=
  match l with
  | a :: b :: c :: d :: t =>
      if a.isDigit && b.isDigit && c.isDigit && d.isDigit then
        some ([a, b, c, d], t)
      else none
  | _ => none

/-- Exactly `\d{2}`. -/
def digits2 (l : List Char) : Option (List Char × List Char) :=
  match l with
  | a :: b :: t => if a.isDigit && b.isDigit then some ([a, b], t) else none
  | _ => none

/-- Case-sensitive literal at the current position. -/
def litTake (s : String) (l : List Char) : Option (List Char) :=
  if startsWithL l s.toList then some (l.drop s.toList.length) else none

/-- Case-insensitive literal at the current position; returns the verbatim
consumed characters and the rest. -/
def litTakeCI (s : String) (l : List Char) : Option (List Char × List Char) :=
  let n := s.toList.length
  let taken := l.take n
  if taken.length = n && (taken.map Char.toLower) = (s.toList.map Char.toLower)
  then some (taken, l.drop n) else none

/-- Candidates for `,?` (greedy: comma consumed first). -/
def commaTake (l : List Char) : List (List Char × List Char) :=
  match l with
  | c :: t => if c = ',' then [([c], t), ([], l)] else [([], l)]
  | [] => [([], [])]

/-- Candidates for the optional year group `(?:\s*,?\s*(\d{4}))?` of the
date-range patterns: the group present (all greedy combinations, in
backtracking order) first, then the group absent. -/
def yearGroupTake (l : List Char) : List (Option (List Char) × List Char) :=
  ((wsTake l).flatMap fun w1 =>
    (commaTake w1.2).flatMap fun cm =>
      (wsTake cm.2).flatMap fun w2 =>
        match digits4 w2.2 with
        | some (y, r) => [(some y, r)]
        | none => []) ++ [(none, l)]

/-- Candidates for the range separator `(?:to|-|–)` (alternatives in
source order; `to` case-insensitively when the pattern has
`re.IGNORECASE`). -/
def sepTake (ci : Bool) (l : List Char) : List (List Char) :=
  (match (if ci then litTakeCI "to" l |>.map (·.2)
          else litTake "to" l) with
   | some r => [r]
   | none => []) ++
  (match l with
   | c :: t => if c = '-' then [t] else []
   | [] => []) ++
  (match l with
   | c :: t => if c = '–' then [t] else []
   | [] => [])

/-- Generic `re.search`: try the matcher at every start position, left to
right (including the final empty position). -/
def searchPos {α : Type} (f : List Char → Option α) : List Char → Option α
  | [] => f []
  | l@(_ :: t) =>
      match f l with
      | some x => some x
      | none => searchPos f t

/-! ## Date-range patterns
Source: `backend/services/itinerary_orchestrator.py` lines 36-64. -/

/-- The `_MONTH_NAMES` dictionary (lines 36-42). -/
def monthNames : List (String × Int) :=
  [("january", 1), ("jan", 1), ("february", 2), ("feb", 2), ("march", 3),
   ("mar", 3), ("april", 4), ("apr", 4), ("may", 5), ("june", 6), ("jun", 6),
   ("july", 7), ("jul", 7), ("august", 8), ("aug", 8), ("september", 9),
   ("sep", 9), ("sept", 9), ("october", 10), ("oct", 10), ("november", 11),
   ("nov", 11), ("december", 12), ("dec", 12)]

/-- Python `_MONTH_NAMES.get(key)`. -/
def monthNameLookup (s : String) : Option Int :=
  (monthNames.find? (fun p => p.1 = s)).map (·.2)

/-- Join captured digit groups as the Python code does with
`f"{y}-{m}-{d}"` (ISO pattern) — the groups are used verbatim. -/
def mkDateStr (y m d : List Char) : String :=
  String.mk y ++ "-" ++ String.mk m ++ "-" ++ String.mk d

/-- Match of `_DATE_RANGE_ISO`
(`(\d{4})-(\d{2})-(\d{2})\s*(?:to|-|–)\s*(\d{4})-(\d{2})-(\d{2})`) at the
current position; returns the two date strings the caller builds from the
groups. -/
def matchISOAt (l : List Char) : Option (String × String) :=
  (digits4 l).bind fun ⟨y1, r1⟩ =>
  (litTake "-" r1).bind fun r2 =>
  (digits2 r2).bind fun ⟨m1, r3⟩ =>
  (litTake "-" r3).bind fun r4 =>
  (digits2 r4).bind fun ⟨d1, r5⟩ =>
  ((wsTake r5).findSome? fun w1 =>
    (sepTake false w1.2).findSome? fun r6 =>
      (wsTake r6).findSome? fun w2 =>
        (digits4 w2.2).bind fun ⟨y2, r7⟩ =>
        (litTake "-" r7).bind fun r8 =>
        (digits2 r8).bind fun ⟨m2, r9⟩ =>
        (litTake "-" r9).bind fun r10 =>
        (digits2 r10).map fun ⟨d2, _⟩ =>
          (mkDateStr y1 m1 d1, mkDateStr y2 m2 d2))

/-- Captured groups of `_DATE_RANGE_TWO_MONTHS`. -/
structure TwoMonthsGroups where
  month1 : String
  d1 : List Char
  y1 : Option (List Char)
  month2 : String
  d2 : List Char
  y2 : Option (List Char)

/-- Match of `_DATE_RANGE_TWO_MONTHS`
(`([A-Za-z]+)\s+(\d{1,2})(?:\s*,?\s*(\d{4}))?\s*(?:to|-|–)\s*([A-Za-z]+)\s+(\d{1,2})(?:\s*,?\s*(\d{4}))?`,
`re.IGNORECASE`) at the current position. -/
def matchTwoMonthsAt (l : List Char) : Option TwoMonthsGroups :=
  (classTake isAlphaAZ l).findSome? fun ⟨mon1, r1⟩ =>
  (ws1Take r1).findSome? fun ⟨_, r2⟩ =>
  (digitsTake12 r2).findSome? fun ⟨d1, r3⟩ =>
  (yearGroupTake r3).findSome? fun ⟨y1, r4⟩ =>
  (wsTake r4).findSome? fun ⟨_, r5⟩ =>
  (sepTake true r5).findSome? fun r6 =>
  (wsTake r6).findSome? fun ⟨_, r7⟩ =>
  (classTake isAlphaAZ r7).findSome? fun ⟨mon2, r8⟩ =>
  (ws1Take r8).findSome? fun ⟨_, r9⟩ =>
  (digitsTake12 r9).findSome? fun ⟨d2, r10⟩ =>
  (yearGroupTake r10).findSome? fun ⟨y2, _⟩ =>
  some ⟨String.mk mon1, d1, y1, String.mk mon2, d2, y2⟩

/-- Character class `[-–to]` of `_DATE_RANGE_MONTH` (with `re.IGNORECASE`
the letters match both cases). -/
def isRangeSepChar (c : Char) : Bool :=
  c = '-' || c = '–' || c.toLower = 't' || c.toLower = 'o'

/-- Captured groups of `_DATE_RANGE_MONTH`. -/
structure MonthGroups where
  month : String
  d1 : List Char
  d2 : List Char
  year : Option (List Char)

/-- Match of `_DATE_RANGE_MONTH`
(`([A-Za-z]+)\s+(\d{1,2})\s*[-–to]+\s*(\d{1,2})(?:\s*,?\s*(\d{4}))?`,
`re.IGNORECASE`) at the current position. -/
def matchMonthAt (l : List Char) : Option MonthGroups :=
  (classTake isAlphaAZ l).findSome? fun ⟨mon, r1⟩ =>
  (ws1Take r1).findSome? fun ⟨_, r2⟩ =>
  (digitsTake12 r2).findSome? fun ⟨d1, r3⟩ =>
  (wsTake r3).findSome? fun ⟨_, r4⟩ =>
  (classTake isRangeSepChar r4).findSome? fun ⟨_, r5⟩ =>
  (wsTake r5).findSome? fun ⟨_, r6⟩ =>
  (digitsTake12 r6).findSome? fun ⟨d2, r7⟩ =>
  (yearGroupTake r7).findSome? fun ⟨y, _⟩ =>
  some ⟨String.mk mon, d1, d2, y⟩

/-! ## City and country patterns
Source: `backend/services/itinerary_orchestrator.py` lines 329-364. -/

/-- Candidates of the capture `[A-Z][a-z]+(?:\s+[A-Z][a-z]+)?`
(two-word form first, all greedy, with the verbatim matched text). -/
def capWordTake (l : List Char) : List (String × List Char) :=
  match l with
  | c :: t =>
      if isUpperAZ c then
        (classTake isLowerAZ t).flatMap fun ⟨w1, r1⟩ =>
          ((ws1Take r1).flatMap fun ⟨sp, r2⟩ =>
            match r2 with
            | c2 :: t2 =>
                if isUpperAZ c2 then
                  (classTake isLowerAZ t2).map fun ⟨w2, r3⟩ =>
                    (String.mk (c :: w1 ++ sp ++ c2 :: w2), r3)
                else []
            | [] => [])
          ++ [(String.mk (c :: w1), r1)]
      else []
  | [] => []

/-- Leading keyword alternation of the first city pattern
(`visit|visiting|trip to|traveling to|travel to|going to|go to|head to|headed to`),
alternatives in source order. -/
def cityKeywordTake (l : List Char) : List (List Char) :=
  ["visit", "visiting", "trip to", "traveling to", "travel to", "going to",
   "go to", "head to", "headed to"].filterMap (fun k => litTake k l)

/-- City pattern 1:
`(?:visit|visiting|trip to|traveling to|travel to|going to|go to|head to|headed to)\s+([A-Z][a-z]+(?:\s+[A-Z][a-z]+)?)`. -/
def matchCityP1At (l : List Char) : Option String :=
  (cityKeywordTake l).findSome? fun r1 =>
    (ws1Take r1).findSome? fun ⟨_, r2⟩ =>
      (capWordTake r2).findSome? fun ⟨w, _⟩ => some w

/-- City pattern 2: `([A-Z][a-z]+(?:\s+[A-Z][a-z]+)?)\s+(?:trip|itinerary)`. -/
def matchCityP2At (l : List Char) : Option String :=
  (capWordTake l).findSome? fun ⟨w, r1⟩ =>
    (ws1Take r1).findSome? fun ⟨_, r2⟩ =>
      if (litTake "trip" r2).isSome || (litTake "itinerary" r2).isSome
      then some w else none

/-- City pattern 3: `in\s+([A-Z][a-z]+(?:\s+[A-Z][a-z]+)?)`. -/
def matchCityP3At (l : List Char) : Option String :=
  (litTake "in" l).bind fun r1 =>
    (ws1Take r1).findSome? fun ⟨_, r2⟩ =>
      (capWordTake r2).findSome? fun ⟨w, _⟩ => some w

/-- Terminator `(?:\s|,|\.|!|\?|$)` of city pattern 4 (`$` also matches
just before a final newline). -/
def p4Term (l : List Char) : Bool :=
  match l with
  | [] => true
  | c :: t =>
      isPySpace c || c = ',' || c = '.' || c = '!' || c = '?' ||
      (c = '\n' && t = [])

/-- City pattern 4:
`to\s+([A-Z][a-z]+(?:\s+[A-Z][a-z]+)?)(?:\s|,|\.|!|\?|$)`. -/
def matchCityP4At (l : List Char) : Option String :=
  (litTake "to" l).bind fun r1 =>
    (ws1Take r1).findSome? fun ⟨_, r2⟩ =>
      (capWordTake r2).findSome? fun ⟨w, r3⟩ =>
        if p4Term r3 then some w else none

/-- The word filter applied to a candidate city
(`itinerary_orchestrator.py` lines 347-350). -/
def cityBlockList : List String :=
  ["march", "april", "may", "june", "july", "august",
   "september", "october", "november", "december",
   "relaxed", "moderate", "packed", "weekend",
   "canada", "france", "italy", "spain", "uk", "usa"]

/-- The `for pattern in city_patterns` loop (lines 342-352): search each
pattern in order; a match whose stripped text is in the block list makes
the loop move on to the next pattern. -/
def extractCity (combined : List Char) : Option String :=
  [matchCityP1At, matchCityP2At, matchCityP3At, matchCityP4At].findSome?
    fun pat =>
      match searchPos pat combined with
      | some w =>
          let c := pyStrip w
          if cityBlockList.contains (strLower c) then none else some c
      | none => none

/-- Connector `(?:,\s*|\sin\s+)` of the country pattern. -/
def connectorTake (l : List Char) : List (List Char) :=
  (match l with
   | c :: t => if c = ',' then (wsTake t).map (·.2) else []
   | [] => []) ++
  (match l with
   | c :: t =>
       if isPySpace c then
         match litTake "in" t with
         | some r => (ws1Take r).map (·.2)
         | none => []
       else []
   | [] => [])

/-- Country pattern
`rf"{city}(?:,\s*|\sin\s+)([A-Z][a-z]+(?:\s+[A-Z][a-z]+)?)"` (lines
354-359); the captured group is stripped by the caller. -/
def matchCountryAt (city : String) (l : List Char) : Option String :=
  (litTake city l).bind fun r1 =>
    (connectorTake r1).findSome? fun r2 =>
      (capWordTake r2).findSome? fun ⟨w, _⟩ => some w

/-- Country extraction given an extracted city. -/
def extractCountry (city : String) (combined : List Char) : Option String :=
  (searchPos (matchCountryAt city) combined).map pyStrip

/-! ## Budget pattern
Source: `_BUDGET_PATTERN`, `backend/services/itinerary_orchestrator.py`
lines 67-71, and the `finditer` loop at lines 367-373. -/

/-- Candidates for the optional fraction `(?:\.\d{1,2})?` (greedy). -/
def fracTake (l : List Char) : List (List Char × List Char) :=
  (match l with
   | c :: t =>
       if c = '.' then (digitsTake12 t).map (fun p => (c :: p.1, p.2)) else []
   | [] => []) ++ [([], l)]

/-- The currency alternation `(?:CAD|cad|dollars?|bucks)` with
`re.IGNORECASE` (so each alternative matches any case), in source order. -/
def currencyTake (l : List Char) : Option (List Char) :=
  match litTakeCI "CAD" l with
  | some p => some p.2
  | none =>
    match litTakeCI "cad" l with
    | some p => some p.2
    | none =>
      match litTakeCI "dollars" l with
      | some p => some p.2
      | none =>
        match litTakeCI "dollar" l with
        | some p => some p.2
        | none => (litTakeCI "bucks" l).map (·.2)

/-- Match of `_BUDGET_PATTERN`
(`\$\s*(?P<amount>[\d,]+(?:\.\d{1,2})?)|(?P<amount2>[\d,]+(?:\.\d{1,2})?)\s*(?:CAD|cad|dollars?|bucks)`)
at the current position; returns the raw amount group and the rest after
the whole match. -/
def matchBudgetAt (l : List Char) : Option (List Char × List Char) :=
  (match l with
   | c :: t =>
       if c = '$' then
         (wsTake t).findSome? fun ⟨_, r1⟩ =>
           (classTake (fun d => d.isDigit || d = ',') r1).findSome? fun ⟨num, r2⟩ =>
             (fracTake r2).findSome? fun ⟨fr, r3⟩ => some (num ++ fr, r3)
       else none
   | [] => none)
  <|>
  ((classTake (fun d => d.isDigit || d = ',') l).findSome? fun ⟨num, r1⟩ =>
    (fracTake r1).findSome? fun ⟨fr, r2⟩ =>
      (wsTake r2).findSome? fun ⟨_, r3⟩ =>
        (currencyTake r3).map fun r4 => (num ++ fr, r4))

/-- Embedding of `re.finditer` for the budget pattern: all non-overlapping
matches, left to right, each search resuming at the previous match end.
The fuel argument is bounded by the input length (every match consumes at
least one character). -/
def budgetMatchesAux : Nat → List Char → List (List Char)
  | 0, _ => []
  | _ + 1, [] => []
  | n + 1, l@(_ :: t) =>
      match matchBudgetAt l with
      | some (raw, rest) => raw :: budgetMatchesAux n rest
      | none => budgetMatchesAux n t

/-- All raw amount captures of the budget pattern, in match order. -/
def budgetMatches (l : List Char) : List (List Char) :=
  budgetMatchesAux (l.length + 1) l

/-- Exact decimal value of a comma-stripped amount string; models
`float(raw)` (every value the pattern can produce is exact in decimal).
Returns `none` when `float` would raise `ValueError` (e.g. `raw = ","`
stripped to the empty string). -/
def parseAmount (raw : List Char) : Option Rat :=
  if raw = [] then none
  else
    match raw.splitOn '.' with
    | [intPart] =>
        if intPart ≠ [] && intPart.all Char.isDigit then
          some (digitsVal intPart : Rat)
        else none
    | [intPart, fracPart] =>
        if intPart.all Char.isDigit && fracPart ≠ [] &&
           fracPart.all Char.isDigit then
          some ((digitsVal intPart : Rat) +
                (digitsVal fracPart : Rat) / ((10 : Rat) ^ fracPart.length))
        else none
    | _ => none

/-- The budget `finditer` loop (lines 367-373): each successfully parsed
amount overwrites the previous one (`raw` is comma-stripped first, and an
unparsable value leaves the accumulator unchanged). -/
def extractBudget (combined : List Char) : Option Rat :=
  (budgetMatches combined).foldl
    (fun acc raw =>
      let stripped := raw.filter (fun c => c ≠ ',')
      if stripped = [] then acc
      else
        match parseAmount stripped with
        | some v => some v
        | none => acc)
    none

/-! ## Pace pattern
Source: `_PACE_PATTERN`, `backend/services/itinerary_orchestrator.py`
lines 74-78, used at lines 385-388; synonym table from
`models/trip_preferences.py` lines 36-52. -/

/-- Candidates for `laid.?back`-style alternatives: literal, then `.?`
(any character but newline, greedy: present first), then literal; returns
verbatim consumed text. -/
def dottedWordTake (a b : String) (l : List Char) :
    List (List Char × List Char) :=
  match litTakeCI a l with
  | none => []
  | some ⟨t1, r1⟩ =>
      ((match r1 with
        | c :: t =>
            if c ≠ '\n' then
              match litTakeCI b t with
              | some ⟨t2, r2⟩ => [(t1 ++ [c] ++ t2, r2)]
              | none => []
            else []
        | [] => []) ++
       (match litTakeCI b r1 with
        | some ⟨t2, r2⟩ => [(t1 ++ t2, r2)]
        | none => []))

/-- All alternative matches of the `_PACE_PATTERN` word alternation at a
position, in source order
(`relaxed|relax|chill|easy|laid.?back|moderate|medium|balanced|normal|packed|fast|rush|busy|intense|active|jam.?packed|hectic`),
each with the verbatim matched text. -/
def paceAltCands (l : List Char) : List (List Char × List Char) :=
  (["relaxed", "relax", "chill", "easy"].filterMap
     (fun w => litTakeCI w l)) ++
  dottedWordTake "laid" "back" l ++
  (["moderate", "medium", "balanced", "normal", "packed", "fast", "rush",
    "busy", "intense", "active"].filterMap (fun w => litTakeCI w l)) ++
  dottedWordTake "jam" "packed" l ++
  (["hectic"].filterMap (fun w => litTakeCI w l))

/-- Match of `_PACE_PATTERN` (with both `\b` boundaries) at a position
whose left boundary has already been checked. -/
def pacePatternAt (l : List Char) : Option (List Char) :=
  (paceAltCands l).findSome? fun ⟨cap, rest⟩ =>
    match rest with
    | [] => some cap
    | c :: _ => if isWordChar c then none else some cap

/-- Scan for `_PACE_PATTERN.search`: try every position whose left side is
a word boundary. -/
def paceSearchAux : Option Char → List Char → Option (List Char)
  | _, [] => none
  | prev, l@(c :: t) =>
      match
        (if (match prev with
             | none => true
             | some p => ¬ isWordChar p) then pacePatternAt l else none) with
      | some cap => some cap
      | none => paceSearchAux (some c) t

/-- First match of the pace pattern in the combined text. -/
def paceSearch (l : List Char) : Option (List Char) := paceSearchAux none l

/-- The `PACE_SYNONYMS` dictionary (`trip_preferences.py` lines 36-52). -/
def paceSynonyms : List (String × String) :=
  [("relax", "relaxed"), ("relaxed", "relaxed"), ("relaxing", "relaxed"),
   ("chill", "relaxed"), ("chilled", "relaxed"), ("chilling", "relaxed"),
   ("slow", "relaxed"), ("lazy", "relaxed"), ("leisurely", "relaxed"),
   ("easy", "relaxed"), ("easygoing", "relaxed"), ("casual", "relaxed"),
   ("laid-back", "relaxed"), ("laid back", "relaxed"), ("laidback", "relaxed"),
   ("moderate", "moderate"), ("medium", "moderate"), ("balanced", "moderate"),
   ("normal", "moderate"), ("average", "moderate"), ("steady", "moderate"),
   ("packed", "packed"), ("fast", "packed"), ("rush", "packed"),
   ("rushed", "packed"), ("busy", "packed"), ("intense", "packed"),
   ("active", "packed"), ("aggressive", "packed"), ("rapid", "packed"),
   ("hectic", "packed"), ("jam-packed", "packed"), ("jam packed", "packed"),
   ("full", "packed"), ("non-stop", "packed"), ("nonstop", "packed")]

/-- Python `PACE_SYNONYMS.get(key, key)`. -/
def paceSynonymLookup (key : String) : String :=
  match paceSynonyms.find? (fun p => p.1 = key) with
  | some p => p.2
  | none => key

/-- The pace extraction of `_extract_preferences_from_history` (lines
385-388): search, lowercase the captured group, delete `-` and space,
then normalise through the synonym table. -/
def extractPace (combined : List Char) : Option String :=
  (paceSearch combined).map fun cap =>
    paceSynonymLookup
      (String.mk ((cap.map Char.toLower).filter (fun c => c ≠ '-' && c ≠ ' ')))

/-! ## Interest keywords
Source: `TripPreferences.INTEREST_KEYWORDS`, `models/trip_preferences.py`
lines 67-171, scanned at `itinerary_orchestrator.py` lines 375-382. -/

/-- The `INTEREST_KEYWORDS` dictionary, in source order. -/
def interestKeywords : List (String × String) :=
  [("food", "Food and Beverage"), ("beverage", "Food and Beverage"),
   ("food tour", "Food and Beverage"), ("food tours", "Food and Beverage"),
   ("restaurant", "Food and Beverage"), ("restaurants", "Food and Beverage"),
   ("dining", "Food and Beverage"), ("eat", "Food and Beverage"),
   ("eating", "Food and Beverage"), ("cuisine", "Food and Beverage"),
   ("coffee", "Food and Beverage"), ("cafe", "Food and Beverage"),
   ("bakery", "Food and Beverage"), ("brewery", "Food and Beverage"),
   ("winery", "Food and Beverage"), ("wine", "Food and Beverage"),
   ("beer", "Food and Beverage"), ("cocktail", "Food and Beverage"),
   ("cocktails", "Food and Beverage"), ("drink", "Food and Beverage"),
   ("drinks", "Food and Beverage"), ("street food", "Food and Beverage"),
   ("cooking", "Food and Beverage"), ("brunch", "Food and Beverage"),
   ("breakfast", "Food and Beverage"), ("lunch", "Food and Beverage"),
   ("dinner", "Food and Beverage"), ("dessert", "Food and Beverage"),
   ("tasting", "Food and Beverage"), ("foodie", "Food and Beverage"),
   ("culinary", "Food and Beverage"), ("local food", "Food and Beverage"),
   ("tea", "Food and Beverage"), ("distillery", "Food and Beverage"),
   ("entertainment", "Entertainment"), ("shopping", "Entertainment"),
   ("casino", "Entertainment"), ("spa", "Entertainment"),
   ("bar", "Entertainment"), ("bars", "Entertainment"),
   ("pub", "Entertainment"), ("pubs", "Entertainment"),
   ("arcade", "Entertainment"), ("nightlife", "Entertainment"),
   ("club", "Entertainment"), ("clubs", "Entertainment"),
   ("nightclub", "Entertainment"), ("karaoke", "Entertainment"),
   ("cinema", "Entertainment"), ("movie", "Entertainment"),
   ("movies", "Entertainment"), ("theater", "Entertainment"),
   ("theatre", "Entertainment"), ("concert", "Entertainment"),
   ("concerts", "Entertainment"), ("live music", "Entertainment"),
   ("music", "Entertainment"), ("festival", "Entertainment"),
   ("festivals", "Entertainment"), ("amusement park", "Entertainment"),
   ("theme park", "Entertainment"), ("waterpark", "Entertainment"),
   ("bowling", "Entertainment"), ("escape room", "Entertainment"),
   ("zoo", "Entertainment"), ("aquarium", "Entertainment"),
   ("mall", "Entertainment"), ("market", "Entertainment"),
   ("markets", "Entertainment"), ("massage", "Entertainment"),
   ("wellness", "Entertainment"), ("yoga", "Entertainment"),
   ("culture", "Culture and History"), ("history", "Culture and History"),
   ("museum", "Culture and History"), ("museums", "Culture and History"),
   ("library", "Culture and History"), ("libraries", "Culture and History"),
   ("church", "Culture and History"), ("churches", "Culture and History"),
   ("cathedral", "Culture and History"), ("temple", "Culture and History"),
   ("mosque", "Culture and History"), ("pyramid", "Culture and History"),
   ("pyramids", "Culture and History"), ("old quarter", "Culture and History"),
   ("old quarters", "Culture and History"), ("old town", "Culture and History"),
   ("fortress", "Culture and History"), ("castle", "Culture and History"),
   ("castles", "Culture and History"), ("palace", "Culture and History"),
   ("palaces", "Culture and History"), ("monument", "Culture and History"),
   ("monuments", "Culture and History"), ("heritage", "Culture and History"),
   ("historic", "Culture and History"), ("historical", "Culture and History"),
   ("ruins", "Culture and History"), ("archaeology", "Culture and History"),
   ("art", "Culture and History"), ("art gallery", "Culture and History"),
   ("gallery", "Culture and History"), ("galleries", "Culture and History"),
   ("architecture", "Culture and History"), ("landmark", "Culture and History"),
   ("landmarks", "Culture and History"), ("memorial", "Culture and History"),
   ("fort", "Culture and History"), ("sightseeing", "Culture and History"),
   ("sight seeing", "Culture and History"), ("tour", "Culture and History"),
   ("tours", "Culture and History"), ("cultural", "Culture and History"),
   ("sport", "Sport"), ("sports", "Sport"),
   ("soccer", "Sport"), ("football", "Sport"),
   ("basketball", "Sport"), ("nfl", "Sport"),
   ("nba", "Sport"), ("nhl", "Sport"),
   ("mlb", "Sport"), ("baseball", "Sport"),
   ("hockey", "Sport"), ("tennis", "Sport"),
   ("golf", "Sport"), ("stadium", "Sport"),
   ("stadiums", "Sport"), ("arena", "Sport"),
   ("gym", "Sport"), ("fitness", "Sport"),
   ("surfing", "Sport"), ("skiing", "Sport"),
   ("snowboarding", "Sport"), ("skating", "Sport"),
   ("cycling", "Sport"), ("biking", "Sport"),
   ("running", "Sport"), ("marathon", "Sport"),
   ("rugby", "Sport"), ("cricket", "Sport"),
   ("boxing", "Sport"), ("mma", "Sport"),
   ("volleyball", "Sport"), ("swimming", "Sport"),
   ("kayaking", "Sport"), ("canoeing", "Sport"),
   ("rock climbing", "Sport"), ("climbing", "Sport"),
   ("nature", "Natural Place"), ("natural", "Natural Place"),
   ("national park", "Natural Place"), ("park", "Natural Place"),
   ("parks", "Natural Place"), ("beach", "Natural Place"),
   ("beaches", "Natural Place"), ("sea", "Natural Place"),
   ("ocean", "Natural Place"), ("lake", "Natural Place"),
   ("lakes", "Natural Place"), ("river", "Natural Place"),
   ("rivers", "Natural Place"), ("fishing", "Natural Place"),
   ("diving", "Natural Place"), ("scuba", "Natural Place"),
   ("snorkeling", "Natural Place"), ("trekking", "Natural Place"),
   ("hiking", "Natural Place"), ("hike", "Natural Place"),
   ("trail", "Natural Place"), ("trails", "Natural Place"),
   ("mountain", "Natural Place"), ("mountains", "Natural Place"),
   ("forest", "Natural Place"), ("jungle", "Natural Place"),
   ("waterfall", "Natural Place"), ("waterfalls", "Natural Place"),
   ("garden", "Natural Place"), ("gardens", "Natural Place"),
   ("botanical", "Natural Place"), ("wildlife", "Natural Place"),
   ("safari", "Natural Place"), ("bird watching", "Natural Place"),
   ("camping", "Natural Place"), ("outdoors", "Natural Place"),
   ("outdoor", "Natural Place"), ("scenic", "Natural Place"),
   ("island", "Natural Place"), ("islands", "Natural Place"),
   ("cave", "Natural Place"), ("caves", "Natural Place"),
   ("canyon", "Natural Place"), ("valley", "Natural Place"),
   ("waterfront", "Natural Place"), ("countryside", "Natural Place")]

/-- The keyword scan of lines 375-381: every keyword occurring as a
substring of the lowercased combined text contributes its category to a
set, modelled as a first-occurrence list. -/
def foundCategories (combinedLower : List Char) : List String :=
  interestKeywords.foldl
    (fun acc p =>
      if hasSub combinedLower p.1.toList then
        (if acc.contains p.2 then acc else acc ++ [p.2])
      else acc)
    []

/-- Insertion of a string into a lexicographically sorted list. -/
def insertSorted (x : String) : List String → List String
  | [] => [x]
  | y :: t => if x ≤ y then x :: y :: t else y :: insertSorted x t

/-- Python `sorted` on a list of strings (insertion sort; Python string
comparison is code-point lexicographic, like Lean's). -/
def sortStrings : List String → List String
  | [] => []
  | x :: t => insertSorted x (sortStrings t)

/-- The interests extraction (line 382): `sorted(found_cats)`. -/
def extractInterests (combined : List Char) : List String :=
  sortStrings (foundCategories (combined.map Char.toLower))

/-! ## Preference extraction from history
Source: `ItineraryOrchestrator._extract_preferences_from_history`,
`backend/services/itinerary_orchestrator.py` lines 284-413. -/

/-- Python `" ".join(texts)`. -/
def joinSp : List String → String
  | [] => ""
  | [s] => s
  | s :: t => s ++ " " ++ joinSp t

/-- The user-authored texts of the transcript, in order
(`[m["content"] for m in messages if m.get("role") == "user"]`). -/
def userTexts (messages : List Message) : List String :=
  (messages.filter (fun m => m.role = "user")).map (·.content)

/-- The concatenated user text the extractor scans. -/
def combinedUserText (messages : List Message) : List Char :=
  (joinSp (userTexts messages)).toList

/-- Date extraction (lines 304-328): ISO range first, then two-month-name
range, then single-month range; `nowYear` models `datetime.now().year`,
used when no year group was captured. -/
def extractDates (nowYear : Int) (combined : List Char) :
    Option String × Option String :=
  match searchPos matchISOAt combined with
  | some (s, e) => (some s, some e)
  | none =>
    match searchPos matchTwoMonthsAt combined with
    | some g =>
        let mo1 := monthNameLookup (strLower g.month1)
        let mo2 := monthNameLookup (strLower g.month2)
        let year :=
          match g.y2 with
          | some y => String.mk y
          | none =>
            match g.y1 with
            | some y => String.mk y
            | none => toString nowYear
        (match mo1, mo2 with
         | some m1, some m2 =>
             (some (year ++ "-" ++ pad2 m1 ++ "-" ++ pad2 (digitsVal g.d1)),
              some (year ++ "-" ++ pad2 m2 ++ "-" ++ pad2 (digitsVal g.d2)))
         | _, _ => (none, none))
    | none =>
      match searchPos matchMonthAt combined with
      | some g =>
          let mo := monthNameLookup (strLower g.month)
          let year :=
            match g.year with
            | some y => String.mk y
            | none => toString nowYear
          (match mo with
           | some m =>
               (some (year ++ "-" ++ pad2 m ++ "-" ++ pad2 (digitsVal g.d1)),
                some (year ++ "-" ++ pad2 m ++ "-" ++ pad2 (digitsVal g.d2)))
           | none => (none, none))
      | none => (none, none)

/-- The values computed by `_extract_preferences_from_history` for the
`TripPreferences(...)` construction site at lines 400-413, one field per
keyword argument of that call. -/
structure ExtractedFields where
  city : String
  country : Option String
  start_date : Option String
  end_date : Option String
  duration_days : Option Int
  budget : Option Rat
  budget_currency : String
  interests : List String
  pace : String
  location_preference : String
  booking_type : String
  source_location : Option String
deriving Repr, DecidableEq

/-- Embedding of the body of `_extract_preferences_from_history` up to the
construction site: the keyword-argument values it computes. -/
def extractedFields (nowYear : Int) (messages : List Message) :
    ExtractedFields :=
  let combined := combinedUserText messages
  let dates := extractDates nowYear combined
  let city0 := extractCity combined
  let country0 :=
    match city0 with
    | some c => extractCountry c combined
    | none => none
  let city := match city0 with | some c => c | none => "Toronto"
  let country := match city0 with | some _ => country0 | none => some "Canada"
  let pace0 := extractPace combined
  { city := city
    country := country
    start_date := dates.1
    end_date := dates.2
    duration_days := deriveDurationDays dates.1 dates.2
    budget := extractBudget combined
    budget_currency := "CAD"
    interests := extractInterests combined
    pace := match pace0 with
            | some p => if p ≠ "" then p else "moderate"
            | none => "moderate"
    location_preference :=
      if city ≠ "" then "downtown " ++ city else "downtown"
    booking_type := "none"
    source_location := none }

/-- The keyword-argument names used at the `TripPreferences(...)` call in
`_extract_preferences_from_history` (lines 400-413). -/
def extractCallKwargs : List String :=
  ["city", "country", "start_date", "end_date", "duration_days", "budget",
   "budget_currency", "interests", "pace", "location_preference",
   "booking_type", "source_location"]

/-- Embedding of `_extract_preferences_from_history`: the field values are
computed and then handed to the `TripPreferences` dataclass `__init__`,
which checks its keyword names. -/
def extract_preferences_from_history (nowYear : Int)
    (messages : List Message) : Except PyErr TripPreferences :=
  let f := extractedFields nowYear messages
  match dataclassInitCheck extractCallKwargs with
  | .error e => .error e
  | .ok _ =>
      .ok { city := some f.city, country := f.country,
            start_date := f.start_date, end_date := f.end_date,
            duration_days := f.duration_days, interests := f.interests,
            pace := some f.pace,
            location_preference := some f.location_preference,
            source_location := f.source_location }

/-! ## Venues and enrichment fan-out
Source: `backend/services/venue_service.py` and
`backend/services/itinerary_orchestrator.py` lines 177-278 and 415-486. -/

/-- A venue row as consumed by the orchestrator (DB rows additionally
carry `place_id`/`canonical_name`/`phone`/`hours`, of which the modelled
code reads `place_id` and `canonical_name` as fallbacks; they default to
the empty string, modelling an absent key). -/
structure Venue where
  place_key : String
  place_id : String := ""
  canonical_name : String := ""
  name : String
  category : String
  address : String
  description : String
  source_url : String
deriving Repr, DecidableEq

/-- The `TORONTO_FALLBACK_VENUES` static list (`venue_service.py` lines
44-168), 15 records. -/
def TORONTO_FALLBACK_VENUES : List Venue :=
  [{ place_key := "cn_tower",
     name := "CN Tower",
     category := "tourism",
     address := "290 Bremner Blvd, Toronto, ON M5V 3L9",
     description := "Iconic 553-metre communications and observation tower with glass floor and revolving restaurant.",
     source_url := "https://www.cntower.ca" },
   { place_key := "rom",
     name := "Royal Ontario Museum",
     category := "museum",
     address := "100 Queens Park, Toronto, ON M5S 2C6",
     description := "Canada\x27s largest museum of world cultures and natural history.",
     source_url := "https://www.rom.on.ca" },
   { place_key := "st_lawrence_market",
     name := "St. Lawrence Market",
     category := "food",
     address := "93 Front St E, Toronto, ON M5E 1C3",
     description := "Historic public market with over 120 vendors offering fresh produce, specialty foods, and artisan goods.",
     source_url := "https://www.stlawrencemarket.com" },
   { place_key := "ripley_aquarium",
     name := "Ripley\x27s Aquarium of Canada",
     category := "entertainment",
     address := "288 Bremner Blvd, Toronto, ON M5V 3L9",
     description := "Marine aquarium with underwater tunnel, touch tanks, and over 20,000 aquatic animals.",
     source_url := "https://www.ripleyaquariums.com/canada" },
   { place_key := "high_park",
     name := "High Park",
     category := "park",
     address := "1873 Bloor St W, Toronto, ON M6R 2Z3",
     description := "Large urban park with nature trails, a zoo, sports facilities, and beautiful gardens.",
     source_url := "https://www.highparktoronto.com" },
   { place_key := "distillery_district",
     name := "Distillery Historic District",
     category := "culture",
     address := "55 Mill St, Toronto, ON M5A 3C4",
     description := "Pedestrian-only village of Victorian industrial architecture with galleries, boutiques, and restaurants.",
     source_url := "https://www.thedistillerydistrict.com" },
   { place_key := "kensington_market",
     name := "Kensington Market",
     category := "food",
     address := "Kensington Ave, Toronto, ON M5T 2K2",
     description := "Bohemian neighbourhood with vintage shops, diverse food stalls, and vibrant street art.",
     source_url := "https://www.kensingtonmarket.ca" },
   { place_key := "hockey_hall_of_fame",
     name := "Hockey Hall of Fame",
     category := "sport",
     address := "30 Yonge St, Toronto, ON M5E 1X8",
     description := "Museum dedicated to the history of ice hockey with interactive exhibits and the Stanley Cup.",
     source_url := "https://www.hhof.com" },
   { place_key := "casa_loma",
     name := "Casa Loma",
     category := "culture",
     address := "1 Austin Terrace, Toronto, ON M5R 1X8",
     description := "Gothic Revival castle with decorated suites, towers, gardens, and an 800-foot underground tunnel.",
     source_url := "https://casaloma.ca" },
   { place_key := "ago",
     name := "Art Gallery of Ontario",
     category := "museum",
     address := "317 Dundas St W, Toronto, ON M5T 1G4",
     description := "One of the largest art museums in North America with a collection spanning from the first century to the present.",
     source_url := "https://ago.ca" },
   { place_key := "toronto_islands",
     name := "Toronto Islands",
     category := "park",
     address := "Toronto Islands, Toronto, ON",
     description := "Chain of small islands offering beaches, picnic areas, bike rentals, and skyline views.",
     source_url := "https://www.toronto.ca/explore-enjoy/parks-gardens-beaches/toronto-islands" },
   { place_key := "harbourfront_centre",
     name := "Harbourfront Centre",
     category := "entertainment",
     address := "235 Queens Quay W, Toronto, ON M5J 2G8",
     description := "Cultural centre on the waterfront with year-round festivals, art exhibitions, and performances.",
     source_url := "https://www.harbourfrontcentre.com" },
   { place_key := "bata_shoe_museum",
     name := "Bata Shoe Museum",
     category := "museum",
     address := "327 Bloor St W, Toronto, ON M5S 1W7",
     description := "Unique museum housing a collection of over 13,000 shoes spanning 4,500 years of history.",
     source_url := "https://www.batashoemuseum.ca" },
   { place_key := "toronto_zoo",
     name := "Toronto Zoo",
     category := "entertainment",
     address := "2000 Meadowvale Rd, Toronto, ON M1B 5K7",
     description := "Large zoo with over 5,000 animals representing 450+ species across themed geographic regions.",
     source_url := "https://www.torontozoo.com" },
   { place_key := "aga_khan_museum",
     name := "Aga Khan Museum",
     category := "museum",
     address := "77 Wynford Dr, Toronto, ON M3C 1K1",
     description := "Museum showcasing Islamic art and Muslim civilisations with concerts, films, and lectures.",
     source_url := "https://www.agakhanmuseum.org" }]


/-- Weather forecast row (shape from §6 / `weather_service`); the numeric
fields are only interpolated into strings the claims never inspect, so
they are modelled as integers. -/
structure Forecast where
  date : String
  condition : String
  temp_min_c : Int
  temp_max_c : Int
  precipitation_chance : Int
deriving Repr, DecidableEq

/-- Weather lookup result; `hasError` is the truthiness of
`result.get("error")`. -/
structure WeatherResult where
  hasError : Bool
  forecasts : List Forecast
deriving Repr, DecidableEq

/-- Booking lookup result, reduced to the keys
`_format_booking_links` reads (`skipped`, `accommodation.airbnb_link`,
`transportation.flights.skyscanner_link`). -/
structure BookingResult where
  skipped : Bool
  airbnbLink : Option String
  flightLink : Option String
deriving Repr, DecidableEq

/-- A route leg returned by the routing collaborator. -/
structure RouteLeg where
  origin : String
  destination : String
  mode : String
deriving Repr, DecidableEq

/-- Embedding of `ItineraryOrchestrator._fetch_weather` (lines 419-435):
`None` when the service is missing, the call raises, or the result carries
an `error` key. -/
def fetch_weather (hasService : Bool) (svc : Except PyErr WeatherResult) :
    Option WeatherResult :=
  if !hasService then none
  else
    match svc with
    | .error _ => none
    | .ok r => if r.hasError then none else some r

/-- Embedding of `ItineraryOrchestrator._fetch_venues` (lines 437-458):
the DB result when the service exists, the call succeeds and the row list
is non-empty; the static Toronto fallback list otherwise.  (The `city`
argument only parametrises the DB query, which is the `svc` oracle.) -/
def fetch_venues (hasService : Bool) (_city : Option String)
    (svc : Except PyErr (List Venue)) : List Venue :=
  if hasService then
    match svc with
    | .ok vs => if vs ≠ [] then vs else TORONTO_FALLBACK_VENUES
    | .error _ => TORONTO_FALLBACK_VENUES
  else TORONTO_FALLBACK_VENUES

/-- The keyword-argument names of the `TripPreferences(...)` call inside
`_fetch_booking` (lines 470-479). -/
def bookingCallKwargs : List String :=
  ["city", "country", "start_date", "end_date", "pace", "interests",
   "booking_type", "source_location"]

/-- Embedding of `ItineraryOrchestrator._fetch_booking` (lines 460-486):
`None` when the service is missing or `booking_type == "none"`; otherwise
it first constructs a `TripPreferences` with the keyword names above
(which raises outside its `try`), then calls the service with exceptions
caught to `None`. -/
def fetch_booking (hasService : Bool) (bookingType : String)
    (svc : Except PyErr BookingResult) : Except PyErr (Option BookingResult) :=
  if !hasService || bookingType = "none" then .ok none
  else
    match dataclassInitCheck bookingCallKwargs with
    | .error e => .error e
    | .ok _ =>
        match svc with
        | .ok r => .ok (some r)
        | .error _ => .ok none

/-- The `asyncio.gather(..., return_exceptions=True)` unwrap of
`generate_enriched_itinerary` (lines 205-221): an exception outcome is
converted to `None` for weather and booking and to
`list(TORONTO_FALLBACK_VENUES)` for venues. -/
def gatherUnwrap (w : Except PyErr (Option WeatherResult))
    (v : Except PyErr (List Venue))
    (b : Except PyErr (Option BookingResult)) :
    Option WeatherResult × List Venue × Option BookingResult :=
  (match w with | .ok x => x | .error _ => none,
   match v with | .ok x => x | .error _ => TORONTO_FALLBACK_VENUES,
   match b with | .ok x => x | .error _ => none)

/-- The full enrichment fan-out: the three lookups are issued together and
joined after all three settle; each coroutine body is the corresponding
`_fetch_*` embedding (weather and venues catch all their exceptions, so
their gather outcomes are always values; booking can raise out of its
coroutine and is caught by the gather unwrap). -/
def enrichFanOut (hasWeather : Bool) (weatherSvc : Except PyErr WeatherResult)
    (hasVenueSvc : Bool) (city : Option String)
    (venueSvc : Except PyErr (List Venue))
    (hasBooking : Bool) (bookingType : String)
    (bookingSvc : Except PyErr BookingResult) :
    Option WeatherResult × List Venue × Option BookingResult :=
  gatherUnwrap (.ok (fetch_weather hasWeather weatherSvc))
               (.ok (fetch_venues hasVenueSvc city venueSvc))
               (fetch_booking hasBooking bookingType bookingSvc)

/-- Stable insertion into a list sorted by `place_key`. -/
def insertVenueSorted (v : Venue) : List Venue -> List Venue
  | [] => [v]
  | w :: t =>
      if v.place_key < w.place_key then v :: w :: t
      else w :: insertVenueSorted v t

/-- Python `sorted(venues, key=lambda v: v.get("place_key", ""))` (line
226; `sorted` is stable). -/
def sortVenuesByKey : List Venue -> List Venue
  | [] => []
  | v :: t => insertVenueSorted v (sortVenuesByKey t)

/-- Python `"sep".join(items)`. -/
def joinWith (sep : String) : List String -> String
  | [] => ""
  | [s] => s
  | s :: t => s ++ sep ++ joinWith sep t

/-- One line of `VenueService.format_venues_for_chat`
(`venue_service.py` lines 363-387). -/
def venueChatLine (v : Venue) : String :=
  let vid := if v.place_key ≠ "" then v.place_key
             else if v.place_id ≠ "" then v.place_id else "unknown"
  let name := if v.name ≠ "" then v.name
              else if v.canonical_name ≠ "" then v.canonical_name
              else "Unknown"
  let desc := String.mk (v.description.toList.take 200)
  let line := "[venue_id: " ++ vid ++ "] " ++ name ++ " [" ++ v.category ++
              "] — " ++ v.address
  let line := if v.source_url ≠ "" then line ++ " | URL: " ++ v.source_url
              else line
  if desc ≠ "" then line ++ " | " ++ desc else line

/-- Embedding of `VenueService.format_venues_for_chat`. -/
def format_venues_for_chat (venues : List Venue) : String :=
  if venues = [] then "(No venues available.)"
  else joinWith "\n" (venues.map venueChatLine)

/-! ## Response formatting helpers
Source: `backend/services/itinerary_orchestrator.py` lines 580-645. -/

/-- One forecast line of `_build_weather_context` (lines 592-598). -/
def forecastContextLine (f : Forecast) : String :=
  let rain := if f.precipitation_chance > 50 then
                " [HIGH RAIN - prioritize indoor venues]" else ""
  let cold := if f.temp_max_c < 5 then " [COLD - mention warm clothing]" else ""
  "  " ++ f.date ++ ": " ++ f.condition ++ ", " ++ toString f.temp_min_c ++
  "°C to " ++ toString f.temp_max_c ++ "°C, precipitation " ++
  toString f.precipitation_chance ++ "%" ++ rain ++ cold

/-- Embedding of `_build_weather_context` (lines 580-611). -/
def build_weather_context (w : Option WeatherResult) : String :=
  match w with
  | none => "\n"
  | some r =>
      if r.forecasts = [] then "\n"
      else
        joinWith "\n"
          (["\n\nDAILY WEATHER FORECAST (CRITICAL - integrate into each day\x27s planning):"]
           ++ r.forecasts.map forecastContextLine
           ++ ["\nIMPORTANT: For each day in your itinerary, consider that day\x27s specific weather:",
               "- If rain likely (>50%), choose indoor venues from the database (museums, indoor attractions).",
               "- If sunny and warm, outdoor venues are great.",
               "- If cold (<5°C), mention wearing warm layers in your activity notes.\n"])

/-- Embedding of `_format_weather_summary` (lines 613-627). -/
def format_weather_summary (w : Option WeatherResult) : Option String :=
  match w with
  | none => none
  | some r =>
      if r.forecasts = [] then none
      else
        some (joinWith " | "
          (r.forecasts.map fun f =>
            f.date ++ ": " ++ f.condition ++ ", " ++ toString f.temp_min_c ++
            "°C to " ++ toString f.temp_max_c ++ "°C"))

/-- Embedding of `_format_booking_links` (lines 629-645). -/
def format_booking_links (b : Option BookingResult) :
    Option (List (String × String)) :=
  match b with
  | none => none
  | some r =>
      if r.skipped then none
      else
        let links :=
          (match r.airbnbLink with
           | some u => [("airbnb", u)]
           | none => []) ++
          (match r.flightLink with
           | some u => [("flight", u)]
           | none => [])
        if links = [] then none else some links

/-! ## LLM gateway
Source: `ItineraryOrchestrator._call_llm`
(`itinerary_orchestrator.py` lines 488-544). -/

/-- One backend attempt: which backend was called and with which
arguments.  `temperature=0.7` is modelled in tenths. -/
structure LLMCall where
  backend : String
  messages : List Message
  temperatureTenths : Nat
  maxTokens : Nat
deriving Repr, DecidableEq

/-- Embedding of `_call_llm`: Groq attempted when enabled and configured
(exceptions logged, leaving the response empty), then Gemini when the
response is still empty and the Gemini flag and client are present, then
the last-resort Gemini attempt when the response is still empty, a Gemini
client exists and the Gemini flag is off; `RuntimeError` when no attempt
produced text.  Returns the outcome together with the attempt trace in
call order; each attempt uses the same message list, temperature 0.7 and
`max_tokens=4096`. -/
def call_llm (useGroq useGemini hasGroqClient hasGeminiClient : Bool)
    (groqRes gemRes : Except PyErr String) (msgs : List Message) :
    Except PyErr String × List LLMCall :=
  let groqCall : LLMCall := ⟨"groq", msgs, 7, 4096⟩
  let gemCall : LLMCall := ⟨"gemini", msgs, 7, 4096⟩
  let s1 :=
    if useGroq && hasGroqClient then
      (match groqRes with
       | .ok t => t
       | .error _ => "", [groqCall])
    else ("", [])
  let s2 :=
    if s1.1 = "" && useGemini && hasGeminiClient then
      (match gemRes with
       | .ok t => t
       | .error _ => "", s1.2 ++ [gemCall])
    else s1
  let s3 :=
    if s2.1 = "" && hasGeminiClient && !useGemini then
      (match gemRes with
       | .ok t => t
       | .error _ => "", s2.2 ++ [gemCall])
    else s2
  if s3.1 = "" then (.error .runtimeError, s3.2) else (.ok s3.1, s3.2)

/-! ## Route enrichment
Source: `_extract_venue_names_from_itinerary` and `_fetch_routes`
(`itinerary_orchestrator.py` lines 546-574 and 651-665). -/

/-- The trailing `\s*\(Source:` of the citation pattern (greedy
whitespace before the literal). -/
def sourceTailCheck (l : List Char) : Option (List Char) :=
  (wsTake l).findSome? fun p => litTake "(Source:" p.2

/-- The lazy capture `(.+?)` of the citation pattern: grow the capture one
non-newline character at a time, accepting the shortest capture whose tail
matches `\s*\(Source:`.  Returns the capture and the rest after the whole
match. -/
def lazyCapAux : List Char → List Char → Option (List Char × List Char)
  | _, [] => none
  | revCap, c :: t =>
      if c = '\n' then none
      else
        match sourceTailCheck t with
        | some rest => some ((c :: revCap).reverse, rest)
        | none => lazyCapAux (c :: revCap) t

/-- Match of the citation pattern `—\s*(.+?)\s*\(Source:` at the current
position; returns the raw captured group (before `.strip()`) and the rest
of the text after the match. -/
def matchCitationAt (l : List Char) : Option (String × List Char) :=
  match l with
  | c :: t =>
      if c = '—' then
        (wsTake t).findSome? fun p =>
          (lazyCapAux [] p.2).map fun q => (String.mk q.1, q.2)
      else none
  | [] => none

/-- The `finditer` scan for the citation pattern: raw captures of all
non-overlapping matches, left to right. -/
def citationMatchesAux : Nat → List Char → List String
  | 0, _ => []
  | _ + 1, [] => []
  | n + 1, l@(_ :: t) =>
      match matchCitationAt l with
      | some (cap, rest) => cap :: citationMatchesAux n rest
      | none => citationMatchesAux n t

/-- All raw citation captures of an itinerary text, in order of
appearance. -/
def allCitations (text : String) : List String :=
  citationMatchesAux (text.toList.length + 1) text.toList

/-- Embedding of `_extract_venue_names_from_itinerary`: strip each
capture, skip empty names, and keep only the first occurrence of each
distinct name, preserving order. -/
def extract_venue_names_from_itinerary (text : String) : List String :=
  (allCitations text).foldl
    (fun acc raw =>
      let nm := pyStrip raw
      if nm ≠ "" && !acc.contains nm then acc ++ [nm] else acc)
    []

/-- Embedding of `_fetch_routes`: `None` when the maps service is missing
or unavailable, when fewer than two distinct venue names were extracted,
when the routing call raises, or when it returns an empty list. -/
def fetch_routes (mapsAvailable : Bool)
    (routesSvc : Except PyErr (List RouteLeg)) (itineraryText : String) :
    Option (List RouteLeg) :=
  if !mapsAvailable then none
  else
    let names := extract_venue_names_from_itinerary itineraryText
    if names.length < 2 then none
    else
      match routesSvc with
      | .ok rs => if rs = [] then none else some rs
      | .error _ => none

/-! ## Enriched itinerary generation
Source: `ItineraryOrchestrator.generate_enriched_itinerary`
(`itinerary_orchestrator.py` lines 177-278) and the prompt template at
lines 83-125. -/

/-- The `ITINERARY_SYSTEM_PROMPT_TEMPLATE` of the orchestrator with its
two placeholders substituted (Python `str.format`). -/
def itinerarySystemPromptOrch (venueCatalogue weatherContext : String) :
    String :=
  "You are a travel itinerary generator. ONLY use venues from the list below.\n\n" ++
  "VENUE LIST — START\n" ++ venueCatalogue ++ "\nVENUE LIST — END\n" ++
  weatherContext ++
  joinWith "\n"
    ["STRICT OUTPUT RULES:",
     "1. Each day MUST have EXACTLY 2 meals: Lunch and Dinner (use food/restaurant venues from the list).",
     "2. Activities per day (NON-MEAL time slots) based on pace:",
     "   - relaxed pace: 2 activities (Morning + Afternoon)",
     "   - moderate pace: 3 activities (Morning + Afternoon + Evening)",
     "   - packed pace: 4 activities (Early Morning + Morning + Afternoon + Evening)",
     "3. Every single line MUST include a Source citation in this exact format:",
     "   (Source: <venue_id>, <url>)",
     "4. Use this exact format per day:",
     "",
     "Day 1 — [Date]",
     "Morning: <activity> — <venue_name> (Source: <venue_id>, <url>)",
     "Lunch: <meal description> — <restaurant_name> (Source: <venue_id>, <url>)",
     "Afternoon: <activity> — <venue_name> (Source: <venue_id>, <url>)",
     "Dinner: <meal description> — <restaurant_name> (Source: <venue_id>, <url>)",
     "",
     "(For moderate pace add Evening activity before Dinner; for packed pace add Early Morning before Morning.)",
     "",
     "Day 2",
     "...",
     "",
     "5. CLOSED-WORLD RULE: Never invent venues. Only use venues from the list.",
     "6. Do NOT add facts not present in the venue record (prices, hours, events).",
     "7. 100% SOURCE COVERAGE: Every line must have a Source. No exceptions.",
     "8. Respect the user\x27s stated dates, interests, and pace.",
     "9. At the very end, add:",
     "",
     "## Estimated Budget",
     "- Accommodation (per night): ~$X CAD",
     "- Activities total: ~$X CAD",
     "- Meals total: ~$X CAD",
     "- **Estimated Total: ~$X CAD**",
     "(Based on average tourist prices in the destination city)"]

/-- The final user message appended before the itinerary LLM call
(lines 246-258). -/
def itineraryUserMessage (city : Option String) : Message :=
  let cityName := match city with
    | some c => if c ≠ "" then c else "the destination"
    | none => "the destination"
  ⟨"user",
   "Please generate my " ++ cityName ++ " itinerary now based on " ++
   "everything I told you. Use ONLY venues from the venue " ++
   "list and include Source citations on every line."⟩

/-- The collaborator outcomes a single enriched-generation turn can
observe: service availability flags and the settled outcome every external
call would produce. -/
structure OrchOracles where
  nowYear : Int
  hasWeather : Bool
  weatherSvc : Except PyErr WeatherResult
  hasVenueSvc : Bool
  venueSvc : Except PyErr (List Venue)
  hasBookingSvc : Bool
  bookingSvc : Except PyErr BookingResult
  mapsAvailable : Bool
  routesSvc : Except PyErr (List RouteLeg)
  useGroq : Bool
  useGemini : Bool
  hasGroqClient : Bool
  hasGeminiClient : Bool
  groqRes : Except PyErr String
  gemRes : Except PyErr String

/-- The enriched result dict (state E, lines 273-278). -/
structure EnrichedResult where
  itinerary_text : String
  weather_summary : Option String
  booking_links : Option (List (String × String))
  route_data : Option (List RouteLeg)
deriving Repr, DecidableEq

/-- Embedding of `generate_enriched_itinerary`: preference extraction
(state C), the gather join (state D.1), venue sort, prompt build and the
fatal-if-both-fail LLM call (state D.2), route enrichment (state D.3), and
response assembly (state E).  Any exception propagates to the caller. -/
def generate_enriched_itinerary (o : OrchOracles) (messages : List Message)
    (bookingType : String) (_sourceLocation : Option String) :
    Except PyErr EnrichedResult :=
  match extract_preferences_from_history o.nowYear messages with
  | .error e => .error e
  | .ok prefs =>
      let joined :=
        enrichFanOut o.hasWeather o.weatherSvc o.hasVenueSvc prefs.city
          o.venueSvc o.hasBookingSvc bookingType o.bookingSvc
      let weather := joined.1
      let venues0 := joined.2.1
      let booking := joined.2.2
      let venues := if venues0 ≠ [] then sortVenuesByKey venues0 else venues0
      let itinSystem :=
        itinerarySystemPromptOrch (format_venues_for_chat venues)
          (build_weather_context weather)
      let itinMessages :=
        ⟨"system", itinSystem⟩ ::
          (messages.filter (fun m => m.role ≠ "system")) ++
          [itineraryUserMessage prefs.city]
      match (call_llm o.useGroq o.useGemini o.hasGroqClient o.hasGeminiClient
               o.groqRes o.gemRes itinMessages).1 with
      | .error e => .error e
      | .ok text =>
          .ok { itinerary_text := text,
                weather_summary := format_weather_summary weather,
                booking_links := format_booking_links booking,
                route_data := fetch_routes o.mapsAvailable o.routesSvc text }

/-! ## Conversation service prompts
Source: `backend/services/conversation_service.py` lines 132-256. -/

/-- The `INTAKE_SYSTEM_PROMPT` constant (`conversation_service.py` lines
132-213), verbatim. -/
def INTAKE_SYSTEM_PROMPT : String :=
  joinWith "\n"
    ["You are a friendly, human-like travel assistant. Your job is to collect the traveller\x27s trip details through a natural multi-turn conversation.",
     "",
     "MANDATORY OUTPUT FORMAT:",
     "Every response MUST end with this tracking line on a new line:",
     "\"Still need: <list>\"",
     "",
     "Where <list> is comma-separated missing REQUIRED fields from: city, country, travel dates, pace",
     "Remove a field from the list ONLY when the user explicitly provides it.",
     "Never include optional fields (interests, budget) unless user mentions them.",
     "Write \"Still need: none\" when ready to generate itinerary.",
     "",
     "Rules you MUST follow:",
     "1. Your FIRST response must be a warm greeting and a short request for trip details (destination city/country, dates, pace).",
     "2. After each user message, acknowledge what you understood in ONE natural sentence, then ask ONLY for the next missing piece.",
     "3. NEVER mention internal mechanics — no \"database\", \"AI\", \"Airflow\", \"pipeline\", \"extracted\", \"slots\", \"parameters\", or \"JSON\".",
     "4. Keep responses concise: 1-3 short paragraphs, conversational tone.",
     "5. Do NOT repeat the same template sentence across turns.",
     "6. COUNTRY INFERENCE: When user mentions a city, intelligently infer the country:",
     "   - Common cities (Toronto, Paris, London, etc.) → You know the country, ask for confirmation",
     "   - Example: If user says \"Paris\", say \"Great! So Paris, France – I\x27ve got that.\"    (remove country from \"still need\")",
     "   - Ambiguous cities (Springfield, Jackson, etc.) → Offer options to user",
     "   - Example: If user says \"Springfield\", ask \"Which Springfield? Springfield, Illinois,    Massachusetts, or Missouri?\"",
     "   - Once country is clear (either inferred or user confirms), remove \"country\" from still_need",
     "",
     "Step A — Collect REQUIRED fields first (in any order):",
     "- Destination city (which city to visit)",
     "- Country (which country that city is in)",
     "- Travel dates (start date + end date, OR start date + number of days)",
     "- Pace (relaxed, moderate, or packed)",
     "",
     "Step B — Collect OPTIONAL fields (mention naturally if user brings them up):",
     "- Interests (e.g. museums, food, nature, sports, nightlife, culture, entertainment)",
     "- Location preference (where to stay: downtown, waterfront, etc.)",
     "",
     "Step C — MANDATORY: Once you have city, country, dates, and pace, you MUST ask BOTH booking questions:",
     "1. FIRST ask: \"Would you like help booking a flight ticket to [City]? If so, what city are you traveling from?\"",
     "2. THEN ask: \"And would you like help finding an Airbnb or accommodation for your stay?\"",
     "Do NOT skip these questions. Do NOT assume. Always ask explicitly.",
     "",
     "Step D — Only AFTER asking both booking questions, ask for final confirmation:",
     "\"Perfect! I have all the details. Should I go ahead and generate your [City] itinerary now?\"",
     "",
     "CRITICAL: You MUST complete Steps A, then C, then D in order.",
     "Do NOT jump straight to generating or discussing the itinerary.",
     "Do NOT skip the booking questions in Step C.",
     "",
     "Do NOT ask about budget — it is not needed.",
     "Do NOT generate the itinerary until the user explicitly confirms.",
     "",
     "RESPONSE FORMAT EXAMPLES:",
     "",
     "Example 1 - Initial greeting:",
     "\"Hey there! Welcome to the Trip Planner! I\x27d love to help you put together a great travel itinerary. To get started, could you tell me a bit about your trip? Things like where you\x27re planning to visit (city and country), when you\x27re traveling, what kinds of activities you enjoy, and whether you\x27d like a relaxed, moderate, or packed schedule?",
     "Still need: city, country, travel dates, pace\"",
     "",
     "Example 2a - After user says \"Paris from March 15-17\" (known city, infer country):",
     "\"Great! Paris, France – perfect choice for a March getaway. So you\x27re looking at a 3-day trip from March 15 to 17. What kind of pace are you thinking - relaxed, moderate, or packed with activities?",
     "Still need: pace\"",
     "",
     "Example 2b - After user says \"Springfield on April 1-3\" (ambiguous city):",
     "\"Springfield – which one are you thinking of? Springfield, Illinois; Springfield, Massachusetts; or Springfield, Missouri? Once I know that, I can help you plan the perfect trip!",
     "Still need: country, travel dates, pace\"",
     "",
     "Example 2c - After user says \"Toronto from Feb 28 to March 3\" (known city confirmed):",
     "\"You\x27re planning a trip to Toronto, Canada from February 28 to March 3 – that\x27s a 3-day adventure in a great Canadian city. What kind of pace are you thinking for your trip - relaxed, moderate, or packed with activities?",
     "Still need: pace\"",
     "",
     "Example 3 - After user confirms pace \"relaxed\" (all required fields collected):",
     "\"Perfect! Now that I know you\x27re heading to Toronto, Canada from February 28 to March 3 with a relaxed pace, I have a couple more quick questions. Would you like help booking a flight ticket to Toronto? If so, what city are you traveling from?",
     "Still need: none\"",
     "",
     "Example 4 - After user answers booking questions OR says no:",
     "\"Great! I have everything I need. Should I go ahead and generate your Toronto itinerary now?",
     "Still need: none\"",
     ""]

/-- The conversation service's own `ITINERARY_SYSTEM_PROMPT_TEMPLATE`
(`conversation_service.py` lines 215-256) with its placeholder
substituted (Python `str.format`). -/
def itinerarySystemPromptConv (venueCatalogue : String) : String :=
  joinWith "\n"
    ["You are a travel itinerary generator. ONLY use venues from the list below.",
     "",
     "VENUE LIST — START"] ++ "\n" ++ venueCatalogue ++ "\n" ++
  joinWith "\n"
    ["VENUE LIST — END",
     "",
     "STRICT OUTPUT RULES:",
     "1. Each day MUST have EXACTLY 2 meals: Lunch and Dinner (use food/restaurant venues from the list).",
     "2. Activities per day (NON-MEAL time slots) based on pace:",
     "   - relaxed pace: 2 activities (Morning + Afternoon)",
     "   - moderate pace: 3 activities (Morning + Afternoon + Evening)",
     "   - packed pace: 4 activities (Early Morning + Morning + Afternoon + Evening)",
     "3. Every single line MUST include a Source citation: (Source: <venue_id>, <url>)",
     "4. Exact format per day:",
     "",
     "Day 1 — [Date]",
     "Morning: <activity> — <venue_name> (Source: <venue_id>, <url>)",
     "Lunch: <meal description> — <restaurant_name> (Source: <venue_id>, <url>)",
     "Afternoon: <activity> — <venue_name> (Source: <venue_id>, <url>)",
     "Dinner: <meal description> — <restaurant_name> (Source: <venue_id>, <url>)",
     "",
     "(For moderate pace add Evening activity before Dinner; for packed pace add Early Morning before Morning.)",
     "",
     "Day 2",
     "...",
     "",
     "5. CLOSED-WORLD RULE: Never invent venues. Only use venues from the list.",
     "6. Do NOT add facts not in the venue record (prices, hours, events).",
     "7. 100% SOURCE COVERAGE: Every line must have a Source. No exceptions.",
     "8. Respect the user\x27s stated dates, interests, and pace.",
     "9. At the very end, add:",
     "",
     "## Estimated Budget",
     "- Accommodation (per night): ~$X CAD",
     "- Activities total: ~$X CAD",
     "- Meals total: ~$X CAD",
     "- **Estimated Total: ~$X CAD**",
     "(Based on average tourist prices in the destination city)"]


/-! ## Still-needed tracking
Source: `ConversationService._parse_still_need` and
`_validate_fields_from_conversation`
(`conversation_service.py` lines 651-734). -/

/-- Split a character list at every occurrence of a separator. -/
def splitChar (sep : Char) : List Char → List (List Char)
  | [] => [[]]
  | c :: t =>
      if c = sep then [] :: splitChar sep t
      else
        match splitChar sep t with
        | h :: r => (c :: h) :: r
        | [] => [[c]]

/-- Python `str.splitlines()` on the `\n`-separated text this service
produces (exotic line separators do not occur in it). -/
def splitLines (s : String) : List String :=
  (splitChar '\n' s.toList).map String.mk

/-- The part of a string after its first colon
(Python `s.split(":", 1)[1]`; callers guard that a colon exists). -/
def afterFirstColon (s : String) : String :=
  match s.toList.dropWhile (fun c => c ≠ ':') with
  | _ :: t => String.mk t
  | [] => ""

/-- Embedding of `_parse_still_need` (lines 651-661): scan the stripped
response lines bottom-up for one starting with `still need:`
(case-insensitively) and split its remainder on commas. -/
def parse_still_need (text : String) : Option (List String) :=
  ((splitLines (pyStrip text)).reverse).findSome? fun line =>
    let stripped := pyStrip line
    if startsWithL (strLower stripped).toList "still need:".toList then
      let remainder := pyStrip (afterFirstColon stripped)
      if remainder = "" ||
         ["none", "nothing", "n/a"].contains (strLower remainder) then
        some []
      else
        some ((((splitChar ',' remainder.toList).map
                  (fun l => pyStrip (String.mk l))).filter (fun i => i ≠ "")))
    else none

/-- Left-side word-boundary test given the previous character. -/
def boundaryL : Option Char → Bool
  | none => true
  | some p => !isWordChar p

/-- Right-side word-boundary test given the rest of the input. -/
def boundaryR : List Char → Bool
  | [] => true
  | c :: _ => !isWordChar c

/-- Scan every position whose left side is a word boundary, testing an
acceptance function there. -/
def scanBounded (f : List Char → Bool) : Option Char → List Char → Bool
  | _, [] => false
  | prev, l@(c :: t) => (boundaryL prev && f l) || scanBounded f (some c) t

/-- Scan every position (no boundary requirement). -/
def scanAny (f : List Char → Bool) : List Char → Bool
  | [] => f []
  | l@(_ :: t) => f l || scanAny f t

/-- Search for a literal word wrapped in `\b...\b` (every word used this
way starts and ends with a word character). -/
def searchBoundedLit (w : String) (l : List Char) : Bool :=
  scanBounded
    (fun r => startsWithL r w.toList && boundaryR (r.drop w.toList.length))
    none l

/-- The `CITY_COUNTRY_MAP` dictionary (`conversation_service.py` lines
45-117); duplicate keys (`bangkok` appears three times) collapse to one
entry as in a Python dict literal. -/
def cityCountryMap : List (String × String) :=
  [("toronto", "Canada"), ("vancouver", "Canada"), ("montreal", "Canada"),
   ("calgary", "Canada"), ("ottawa", "Canada"), ("winnipeg", "Canada"),
   ("edmonton", "Canada"), ("quebec", "Canada"),
   ("new york", "USA"), ("los angeles", "USA"), ("chicago", "USA"),
   ("houston", "USA"), ("phoenix", "USA"), ("philadelphia", "USA"),
   ("san antonio", "USA"), ("san diego", "USA"), ("dallas", "USA"),
   ("san francisco", "USA"), ("boston", "USA"), ("seattle", "USA"),
   ("denver", "USA"), ("miami", "USA"), ("las vegas", "USA"),
   ("orlando", "USA"),
   ("paris", "France"), ("london", "UK"), ("berlin", "Germany"),
   ("rome", "Italy"), ("madrid", "Spain"), ("barcelona", "Spain"),
   ("amsterdam", "Netherlands"), ("vienna", "Austria"),
   ("prague", "Czech Republic"), ("bangkok", "Thailand"),
   ("zurich", "Switzerland"), ("lisbon", "Portugal"), ("dublin", "Ireland"),
   ("athens", "Greece"), ("istanbul", "Turkey"),
   ("tokyo", "Japan"), ("beijing", "China"), ("shanghai", "China"),
   ("hong kong", "China"), ("singapore", "Singapore"),
   ("seoul", "South Korea"), ("delhi", "India"), ("mumbai", "India"),
   ("sydney", "Australia"), ("melbourne", "Australia"),
   ("brisbane", "Australia"), ("perth", "Australia"),
   ("auckland", "New Zealand"),
   ("buenos aires", "Argentina"), ("rio de janeiro", "Brazil"),
   ("sao paulo", "Brazil"), ("santiago", "Chile"), ("lima", "Peru"),
   ("bogota", "Colombia")]

/-- City check, first alternative:
`\b[A-Z][a-z]+(?:\s+[A-Z][a-z]+)?\b` on the original-case text. -/
def capWordBoundedSearch (l : List Char) : Bool :=
  scanBounded (fun r => (capWordTake r).any fun p => boundaryR p.2) none l

/-- City check, second alternative:
`\b(visit|visiting|trip to|going to|traveling to)\s+\w+` on the lowercased
text. -/
def travelContextSearch (l : List Char) : Bool :=
  scanBounded
    (fun r =>
      ["visit", "visiting", "trip to", "going to", "traveling to"].any fun k =>
        match litTake k r with
        | some r1 =>
            (ws1Take r1).any fun p =>
              match p.2 with
              | d :: _ => isWordChar d
              | [] => false
        | none => false)
    none l

/-- The country-name alternation of the country check. -/
def countryWords : List String :=
  ["canada", "france", "uk", "usa", "japan", "germany", "italy", "spain",
   "england", "united states", "united kingdom", "china", "australia",
   "mexico", "brazil"]

/-- Month-abbreviation alternation used by the date patterns. -/
def monthAbbrevs : List String :=
  ["jan", "feb", "mar", "apr", "may", "jun", "jul", "aug", "sep", "sept",
   "oct", "nov", "dec"]

/-- Full month-name alternation of date pattern 2. -/
def fullMonthAlt : List String :=
  ["january", "february", "march", "april", "may", "june", "july", "august",
   "september", "october", "november", "december", "jan", "feb", "mar",
   "apr", "may", "jun", "jul", "aug", "sep", "sept", "oct", "nov", "dec"]

/-- A month abbreviation followed by the greedy `[a-z]*` tail (the run is
followed by whitespace or digits in every use, so plain greedy consumption
is exact). -/
def monthAbbrevRun (l : List Char) : List (List Char) :=
  (monthAbbrevs.filterMap (fun k => litTake k l)).map
    (fun r => r.dropWhile isLowerAZ)

/-- Date pattern 1:
`from\s+<mon>[a-z]*\s+\d{1,2}\s+to\s+<mon>[a-z]*\s+\d{1,2}`. -/
def dateP1At (l : List Char) : Bool :=
  match litTake "from" l with
  | none => false
  | some r1 =>
      (ws1Take r1).any fun w1 =>
        (monthAbbrevRun w1.2).any fun r2 =>
          (ws1Take r2).any fun w2 =>
            (digitsTake12 w2.2).any fun d1 =>
              (ws1Take d1.2).any fun w3 =>
                match litTake "to" w3.2 with
                | none => false
                | some r3 =>
                    (ws1Take r3).any fun w4 =>
                      (monthAbbrevRun w4.2).any fun r4 =>
                        (ws1Take r4).any fun w5 =>
                          (digitsTake12 w5.2).any fun _ => true

/-- Date pattern 2 body: `(<full month names>)\s+\d{1,2}` (scanned with a
left `\b`). -/
def dateP2At (l : List Char) : Bool :=
  (fullMonthAlt.filterMap (fun k => litTake k l)).any fun r =>
    (ws1Take r).any fun w => (digitsTake12 w.2).any fun _ => true

/-- Date pattern 3: `\d{4}-\d{2}-\d{2}`. -/
def dateP3At (l : List Char) : Bool :=
  match digits4 l with
  | none => false
  | some ⟨_, r1⟩ =>
      match litTake "-" r1 with
      | none => false
      | some r2 =>
          match digits2 r2 with
          | none => false
          | some ⟨_, r3⟩ =>
              match litTake "-" r3 with
              | none => false
              | some r4 => (digits2 r4).isSome

/-- Date pattern 4 body: `\d{1,2}/\d{1,2}` (scanned with a left `\b`). -/
def dateP4At (l : List Char) : Bool :=
  (digitsTake12 l).any fun d1 =>
    match litTake "/" d1.2 with
    | none => false
    | some r => (digitsTake12 r).any fun _ => true

/-- Date pattern 5 body:
`(?:<mon>)[a-z]*\s*\d{1,2}\s*(?:to|-|through|until)\s*(?:<mon>)[a-z]*\s*\d{1,2}`
(scanned with a left `\b`). -/
def dateP5At (l : List Char) : Bool :=
  (monthAbbrevRun l).any fun r1 =>
    (wsTake r1).any fun w1 =>
      (digitsTake12 w1.2).any fun d1 =>
        (wsTake d1.2).any fun w2 =>
          (["to", "-", "through", "until"].filterMap
             (fun k => litTake k w2.2)).any fun r2 =>
            (wsTake r2).any fun w3 =>
              (monthAbbrevRun w3.2).any fun r3 =>
                (wsTake r3).any fun w4 =>
                  (digitsTake12 w4.2).any fun _ => true

/-- Date pattern 6: `\d+\s*(?:day|night)s?` (the digit run is followed by
whitespace or letters, so greedy consumption is exact). -/
def dateP6At (l : List Char) : Bool :=
  match l with
  | c :: _ =>
      c.isDigit &&
      ((wsTake (l.dropWhile Char.isDigit)).any fun w =>
        (litTake "day" w.2).isSome || (litTake "night" w.2).isSome)
  | [] => false

/-- The `date_found` disjunction over the seven date patterns
(lines 703-719), all applied to the lowercased text. -/
def dateFoundSearch (low : List Char) : Bool :=
  scanAny dateP1At low || scanBounded dateP2At none low ||
  scanAny dateP3At low || scanBounded dateP4At none low ||
  scanBounded dateP5At none low || scanAny dateP6At low

/-- The `laid.?back` member of the pace-found alternation (the validator
patterns are applied to already-lowercased text and are compiled without
`re.IGNORECASE`). -/
def laidBackAt (l : List Char) : Bool :=
  match litTake "laid" l with
  | none => false
  | some r =>
      (match r with
       | c :: t =>
           c ≠ '\n' &&
           (match litTake "back" t with
            | some r2 => boundaryR r2
            | none => false)
       | [] => false) ||
      (match litTake "back" r with
       | some r2 => boundaryR r2
       | none => false)

/-- The `pace_found` check (lines 725-729):
`\b(relaxed|relax|moderate|packed|fast|slow|chill|busy|easy|laid.?back|normal|balanced|intense|hectic)\b`. -/
def paceFoundSearch (low : List Char) : Bool :=
  scanBounded
    (fun r =>
      (["relaxed", "relax", "moderate", "packed", "fast", "slow", "chill",
        "busy", "easy"].any fun w =>
          startsWithL r w.toList && boundaryR (r.drop w.toList.length)) ||
      laidBackAt r ||
      (["normal", "balanced", "intense", "hectic"].any fun w =>
          startsWithL r w.toList && boundaryR (r.drop w.toList.length)))
    none low

/-- Embedding of `_validate_fields_from_conversation` (lines 663-734). -/
def validate_fields_from_conversation (messages : List Message) :
    List String :=
  let combined := combinedUserText messages
  let low := combined.map Char.toLower
  let cityFound := capWordBoundedSearch combined || travelContextSearch low
  let countryFound := countryWords.any (fun w => searchBoundedLit w low)
  let countryInferred := cityCountryMap.any (fun p => searchBoundedLit p.1 low)
  let dateFound := dateFoundSearch low
  let paceFound := paceFoundSearch low
  (if !cityFound then ["city"] else []) ++
  (if !countryFound && !countryInferred then ["country"] else []) ++
  (if !dateFound then ["travel dates"] else []) ++
  (if !paceFound then ["pace"] else [])

/-! ## Booking-info extraction
Source: `ConversationService._extract_booking_info`
(`conversation_service.py` lines 588-627). -/

/-- Word-bounded case-insensitive alternation search (for the
`\b(yes|...)\b` checks, compiled with `re.IGNORECASE`; every alternative
starts and ends with a word character). -/
def searchBoundedAltCI (ws : List String) (l : List Char) : Bool :=
  scanBounded
    (fun r =>
      ws.any fun w =>
        match litTakeCI w r with
        | some p => boundaryR p.2
        | none => false)
    none l

/-- Unbounded case-insensitive alternation search (for the second
flight-context pattern, which has no `\b`). -/
def searchAltCI (ws : List String) (l : List Char) : Bool :=
  scanAny (fun r => ws.any fun w => (litTakeCI w r).isSome) l

/-- The `.{0,30}` gap of the Airbnb pattern followed by its alternation:
at most `fuel` non-newline characters may be skipped before one of the
alternatives matches. -/
def gapThenAltCI (alts : List String) : Nat → List Char → Bool
  | fuel, l =>
      (alts.any fun a => (litTakeCI a l).isSome) ||
      (match fuel, l with
       | f + 1, c :: t => c ≠ '\n' && gapThenAltCI alts f t
       | _, _ => false)

/-- The `wants_airbnb` pattern
`\b(yes|yeah|sure|yep|ok|okay|please)\b.{0,30}(airbnb|stay|accommodation|place to stay|place)`
(`re.IGNORECASE`). -/
def wantsAirbnbSearch (l : List Char) : Bool :=
  scanBounded
    (fun r =>
      ["yes", "yeah", "sure", "yep", "ok", "okay", "please"].any fun w =>
        match litTakeCI w r with
        | some p =>
            boundaryR p.2 &&
            gapThenAltCI
              ["airbnb", "stay", "accommodation", "place to stay", "place"]
              30 p.2
        | none => false)
    none l

/-- The leading alternation of the source-location pattern
(`flying from|departing from|traveling from|i.?m from|from`, alternatives
in source order, case-sensitive). -/
def sourceLeadTake (l : List Char) : List (List Char) :=
  (["flying from", "departing from", "traveling from"].filterMap
     (fun k => litTake k l)) ++
  (match l with
   | 'i' :: r =>
       (match r with
        | c :: t =>
            if c ≠ '\n' then
              match litTake "m from" t with
              | some r2 => [r2]
              | none => []
            else []
        | [] => []) ++
       (match litTake "m from" r with
        | some r2 => [r2]
        | none => [])
   | _ => []) ++
  (match litTake "from" l with
   | some r => [r]
   | none => [])

/-- The terminator `(?:\s*[,.\?!]|$)` of the source-location capture. -/
def sourceTermCheck (l : List Char) : Bool :=
  ((wsTake l).any fun w =>
    match w.2 with
    | c :: _ => c = ',' || c = '.' || c = '?' || c = '!'
    | [] => false) ||
  l = [] || l = ['\n']

/-- The lazy capture `([A-Z][a-zA-Z\s]+?)` of the source-location pattern:
grow by at least one class character until the terminator matches. -/
def sourceCapGrow : List Char → List Char → Option (List Char)
  | _, [] => none
  | revCap, c :: t =>
      if isAlphaAZ c || isPySpace c then
        if sourceTermCheck t then some (c :: revCap).reverse
        else sourceCapGrow (c :: revCap) t
      else none

/-- Match of the source-location pattern at the current position. -/
def matchSourceAt (l : List Char) : Option String :=
  (sourceLeadTake l).findSome? fun r1 =>
    (ws1Take r1).findSome? fun ⟨_, r2⟩ =>
      match r2 with
      | c :: t =>
          if isUpperAZ c then (sourceCapGrow [c] t).map String.mk else none
      | [] => none

/-- Embedding of `_extract_booking_info`: returns
`(booking_type, source_location)`. -/
def extract_booking_info (messages : List Message) :
    String × Option String :=
  let combined := combinedUserText messages
  let wantsFlight :=
    searchBoundedAltCI
      ["yes", "yeah", "sure", "yep", "ok", "okay", "please", "fly",
       "flight", "flying"] combined &&
    searchAltCI ["flight", "fly", "flying from", "departing from", "ticket"]
      combined
  let wantsAirbnb := wantsAirbnbSearch combined
  let sourceLocation :=
    (searchPos matchSourceAt combined).map pyStrip
  let bookingType :=
    if wantsFlight && wantsAirbnb then "both"
    else if wantsFlight then "transportation"
    else if wantsAirbnb then "accommodation"
    else "none"
  (bookingType, sourceLocation)

/-! ## Conversation turn
Source: `ConversationService.turn`, `_greeting`, `_intake_turn` and
`_generate_grounded_itinerary`
(`conversation_service.py` lines 272-582). -/

/-- The enrichment dict of a turn result
(`weather_summary`, `booking_links`, `route_data`). -/
structure EnrichmentOut where
  weather_summary : Option String
  booking_links : Option (List (String × String))
  route_data : Option (List RouteLeg)
deriving Repr, DecidableEq

/-- The `turn()` result tuple
`(messages, assistant_text, phase, still_need, enrichment)`. -/
structure TurnResult where
  messages : List Message
  assistantText : String
  phase : String
  stillNeed : Option (List String)
  enrichment : Option EnrichmentOut
deriving Repr, DecidableEq

/-- LLM-backend configuration of a `ConversationService` instance
(`__init__`, lines 275-308): `use_groq` implies a Groq client exists and
`use_gemini` implies a Gemini client exists. -/
structure ConvState where
  useGroq : Bool
  useGemini : Bool
  hasGeminiClient : Bool
  hasOrchestrator : Bool
deriving Repr, DecidableEq

/-- The settled outcomes of every external call a single conversation turn
can make; LLM outcomes are per call site because each site sends different
messages. -/
structure ConvOracles where
  nowYear : Int
  hasWeather : Bool
  weatherSvc : Except PyErr WeatherResult
  hasVenueSvc : Bool
  venueSvc : Except PyErr (List Venue)
  hasBookingSvc : Bool
  bookingSvc : Except PyErr BookingResult
  mapsAvailable : Bool
  routesSvc : Except PyErr (List RouteLeg)
  orchGroqRes : Except PyErr String
  orchGemRes : Except PyErr String
  legacyVenueSvc : Except PyErr (List Venue)
  legacyGroqRes : Except PyErr String
  legacyGemRes : Except PyErr String
  intakeGroqRes : Except PyErr String
  intakeGemRes : Except PyErr String

/-- The dual-backend attempt shared by `_intake_turn` (max_tokens 1024)
and the legacy path of `_generate_grounded_itinerary` (max_tokens 4096):
try Groq when enabled, catching its exception and enabling Gemini; then
try Gemini when the response is still empty and Gemini is enabled (its
exception is not caught and propagates); raise when the response is still
empty. -/
def conv_llm (useGroq useGemini : Bool) (groqRes gemRes : Except PyErr String)
    (msgs : List Message) (maxTokens : Nat) :
    Except PyErr String × List LLMCall :=
  let groqCall : LLMCall := ⟨"groq", msgs, 7, maxTokens⟩
  let gemCall : LLMCall := ⟨"gemini", msgs, 7, maxTokens⟩
  let s1 :=
    if useGroq then
      (match groqRes with
       | .ok t => (t, useGemini)
       | .error _ => ("", true), [groqCall])
    else (("", useGemini), [])
  if s1.1.1 = "" && s1.1.2 then
    match gemRes with
    | .ok t =>
        if t = "" then (.error .exception, s1.2 ++ [gemCall])
        else (.ok t, s1.2 ++ [gemCall])
    | .error e => (.error e, s1.2 ++ [gemCall])
  else if s1.1.1 = "" then (.error .exception, s1.2)
  else (.ok s1.1.1, s1.2)

/-- Python `messages.insert(0, system)` guard of `_intake_turn`
(lines 378-379). -/
def ensureSystemAtHead (messages : List Message) : List Message :=
  match messages with
  | [] => [⟨"system", INTAKE_SYSTEM_PROMPT⟩]
  | m :: _ =>
      if m.role ≠ "system" then ⟨"system", INTAKE_SYSTEM_PROMPT⟩ :: messages
      else messages

/-- The `Still need:` line stripping of `_intake_turn` (lines 427-431). -/
def stripStillNeedLines (text : String) : String :=
  pyStrip (joinWith "\n"
    ((splitLines text).filter
      (fun line =>
        !(startsWithL (strLower (pyStrip line)).toList
            "still need:".toList))))

/-- Embedding of `_intake_turn` (lines 373-440). -/
def intake_turn (cs : ConvState) (co : ConvOracles)
    (messages : List Message) : Except PyErr TurnResult :=
  let messages := ensureSystemAtHead messages
  match (conv_llm cs.useGroq cs.useGemini co.intakeGroqRes co.intakeGemRes
           messages 1024).1 with
  | .error e => .error e
  | .ok responseText =>
      let stillNeed :=
        match parse_still_need responseText with
        | some sn => sn
        | none => validate_fields_from_conversation messages
      let cleaned := stripStillNeedLines responseText
      let messages2 := messages ++ [⟨"assistant", cleaned⟩]
      let phase := if containsMarker cleaned then "confirmed" else "intake"
      .ok ⟨messages2, cleaned, phase, some stillNeed, none⟩

/-- The legacy city extraction of `_generate_grounded_itinerary`
(lines 497-509): pattern
`(?:visit|visiting|trip to|going to)\s+([A-Z][a-zA-Z\s]+?)(?:\s|,|\.|\?|!|$)`
searched in each user message in order. -/
def legacyCityCapGrow : List Char → List Char → Option (List Char)
  | _, [] => none
  | revCap, c :: t =>
      if isAlphaAZ c || isPySpace c then
        if (match t with
            | [] => true
            | d :: r =>
                isPySpace d || d = ',' || d = '.' || d = '?' || d = '!' ||
                (d = '\n' && r = [])) then
          some (c :: revCap).reverse
        else legacyCityCapGrow (c :: revCap) t
      else none

/-- Match of the legacy city pattern at the current position. -/
def matchLegacyCityAt (l : List Char) : Option String :=
  (["visit", "visiting", "trip to", "going to"].filterMap
     (fun k => litTake k l)).findSome? fun r1 =>
    (ws1Take r1).findSome? fun ⟨_, r2⟩ =>
      match r2 with
      | c :: t =>
          if isUpperAZ c then (legacyCityCapGrow [c] t).map String.mk
          else none
      | [] => none

/-- The per-message legacy city loop: first user message with a match
wins; the captured group is stripped. -/
def legacyExtractCity : List Message → Option String
  | [] => none
  | m :: rest =>
      if m.role = "user" then
        match searchPos matchLegacyCityAt m.content.toList with
        | some w => some (pyStrip w)
        | none => legacyExtractCity rest
      else legacyExtractCity rest

/-- The legacy (venues-only) path of `_generate_grounded_itinerary`
(lines 492-582).  The venue DB call at lines 511-515 is not wrapped in a
`try`, so its exception propagates. -/
def legacy_itinerary (cs : ConvState) (co : ConvOracles)
    (messages : List Message) : Except PyErr TurnResult :=
  let city := match legacyExtractCity messages with
    | some c => if c ≠ "" then c else "Toronto"
    | none => "Toronto"
  match (if co.hasVenueSvc then co.legacyVenueSvc.map some else .ok none) with
  | .error e => .error e
  | .ok dbVenues =>
      let venues0 := match dbVenues with
        | some vs => vs
        | none => []
      let venues := if venues0 = [] then TORONTO_FALLBACK_VENUES else venues0
      let itinSystem :=
        itinerarySystemPromptConv (format_venues_for_chat venues)
      let cityRef := if city ≠ "" && city ≠ "Toronto" then city else "my"
      let itinMessages :=
        ⟨"system", itinSystem⟩ ::
          (messages.filter (fun m => m.role ≠ "system")) ++
          [⟨"user",
            "Please generate " ++ cityRef ++ " itinerary now based on " ++
            "everything I told you. Use ONLY venues from the venue " ++
            "list and include Source citations on every line."⟩]
      match (conv_llm cs.useGroq cs.useGemini co.legacyGroqRes
               co.legacyGemRes itinMessages 4096).1 with
      | .error e => .error e
      | .ok text =>
          .ok ⟨messages ++ [⟨"assistant", text⟩], text, "itinerary",
               none, none⟩

/-- The orchestrator oracles handed over by the enriched path of
`_generate_grounded_itinerary` (lines 452-472): a Gemini client is created
when missing and Groq is off, and the orchestrator receives
`use_gemini = self.use_gemini or gemini is not None`. -/
def orchOraclesOf (cs : ConvState) (co : ConvOracles) : OrchOracles :=
  let hasGem := cs.hasGeminiClient || !cs.useGroq
  { nowYear := co.nowYear
    hasWeather := co.hasWeather
    weatherSvc := co.weatherSvc
    hasVenueSvc := co.hasVenueSvc
    venueSvc := co.venueSvc
    hasBookingSvc := co.hasBookingSvc
    bookingSvc := co.bookingSvc
    mapsAvailable := co.mapsAvailable
    routesSvc := co.routesSvc
    useGroq := cs.useGroq
    useGemini := cs.useGemini || hasGem
    hasGroqClient := cs.useGroq
    hasGeminiClient := hasGem
    groqRes := co.orchGroqRes
    gemRes := co.orchGemRes }

/-- Embedding of `_generate_grounded_itinerary` (lines 442-582): when an
orchestrator is configured, run the enriched pipeline and fall through to
the legacy path on any exception from it; otherwise run the legacy path
directly. -/
def generate_grounded_itinerary (cs : ConvState) (co : ConvOracles)
    (messages : List Message) : Except PyErr TurnResult :=
  if cs.hasOrchestrator then
    let bk := extract_booking_info messages
    match generate_enriched_itinerary (orchOraclesOf cs co) messages
            bk.1 bk.2 with
    | .ok r =>
        .ok ⟨messages ++ [⟨"assistant", r.itinerary_text⟩],
             r.itinerary_text, "itinerary", none,
             some ⟨r.weather_summary, r.booking_links, r.route_data⟩⟩
    | .error _ => legacy_itinerary cs co messages
  else legacy_itinerary cs co messages

/-- The fixed greeting text of `_greeting` (lines 350-371). -/
def greetingText : String :=
  "Hey there! Welcome to the Trip Planner! " ++
  "I\x27d love to help you put together a great travel itinerary. " ++
  "To get started, could you tell me a bit about your trip? " ++
  "Things like where you\x27re planning to visit (city and country), " ++
  "when you\x27re traveling, " ++
  "what kinds of activities you enjoy, and whether you\x27d like " ++
  "a relaxed, moderate, or packed schedule?"

/-- Embedding of `_greeting`: fixed welcome, no LLM call. -/
def greetingResult : TurnResult :=
  ⟨[⟨"system", INTAKE_SYSTEM_PROMPT⟩, ⟨"assistant", greetingText⟩],
   greetingText, "greeting",
   some ["city", "country", "travel dates", "pace"], none⟩

/-- Embedding of `ConversationService.turn` (lines 314-344): greeting on
an empty transcript; otherwise append the user message (when non-empty),
then either the grounded-itinerary path (when `_user_is_confirming`) or
the intake path. -/
def appendUserInput (messages : List Message)
    (userInput : Option String) : List Message :=
  match userInput with
  | some s => if s ≠ "" then messages ++ [⟨"user", s⟩] else messages
  | none => messages

def turn (cs : ConvState) (co : ConvOracles) (messages : List Message)
    (userInput : Option String) : Except PyErr TurnResult :=
  if messages = [] then .ok greetingResult
  else
    if user_is_confirming (appendUserInput messages userInput) userInput then
      generate_grounded_itinerary cs co (appendUserInput messages userInput)
    else intake_turn cs co (appendUserInput messages userInput)

/-! ## Pace parameters and itinerary validators
Source: `backend/config/settings.py` lines 84-106,
`backend/models/itinerary.py`, and
`backend/services/itinerary_service.py` lines 688-817. -/

/-- A Python value that is either an int or a 2-tuple of ints — the two
shapes a `PACE_PARAMS` entry value can take. -/
inductive PyVal where
  | int : Int → PyVal
  | pair : Int → Int → PyVal
deriving Repr, DecidableEq

/-- Python 2-tuple unpacking `lo, hi = v`: an int is not iterable and
raises `TypeError`. -/
def unpack2 : PyVal → Except PyErr (Int × Int)
  | .int _ => .error .typeError
  | .pair a b => .ok (a, b)

/-- One `PACE_PARAMS` entry (`settings.py` lines 84-106). -/
structure PaceParams where
  activities_per_day : PyVal
  minutes_per_activity : PyVal
  buffer_between_activities : Int
  lunch_duration : Int
  dinner_duration : Int
deriving Repr, DecidableEq

/-- The `PACE_PARAMS` table: `activities_per_day` is the plain int 2, 3 or
4 ("Exactly N activities per day"), `minutes_per_activity` a pair. -/
def PACE_PARAMS : List (String × PaceParams) :=
  [("relaxed", ⟨.int 2, .pair 90 120, 20, 90, 120⟩),
   ("moderate", ⟨.int 3, .pair 60 90, 15, 60, 90⟩),
   ("packed", ⟨.int 4, .pair 30 60, 5, 45, 60⟩)]

/-- Activity fields read by the validators (`models/itinerary.py`). -/
structure Activity where
  activity_id : String := ""
  venue_name : String := ""
  sequence : Int := 0
  category : Option String := none
  estimated_cost : Rat := 0
  source_url : Option String := none
  from_database : Bool := false
deriving Repr, DecidableEq

/-- Meal fields read by the validators. -/
structure Meal where
  meal_type : String := ""
  venue_name : String := ""
  estimated_cost : Rat := 0
deriving Repr, DecidableEq

/-- Day fields read by the validators. -/
structure ItineraryDay where
  day_number : Int := 0
  date : String := ""
  activities : List Activity := []
  meals : List Meal := []
  daily_budget_allocated : Rat := 0
  daily_budget_spent : Rat := 0
deriving Repr, DecidableEq

/-- Itinerary fields read by the validators. -/
structure Itinerary where
  trip_id : String := ""
  days : List ItineraryDay := []
  total_budget : Rat := 0
  total_spent : Rat := 0
  pace : Option String := none
deriving Repr, DecidableEq

/-- Preference fields read by `_validate_feasibility`. -/
structure FeasPrefs where
  duration_days : Int
  pace : String
  interests : List String
deriving Repr, DecidableEq

/-- Findings of `_validate_feasibility`; the Python message strings
(which interpolate floats) are abstracted to tags, preserving which check
produced the entry and for which day. -/
inductive FeasFinding where
  | dayCountMismatch (expected got : Int)
  | noActivities (day : Int)
  | fewMeals (day : Int) (got : Nat)
  | dayBudgetExceeded (day : Int)
  | paceCountOut (day : Int) (n : Nat)
  | totalBudgetExceeded
  | interestsNotCovered (missing : List String)
deriving Repr, DecidableEq

/-- Result of `_validate_feasibility`. -/
structure FeasResult where
  feasible : Bool
  issues : List FeasFinding
  warnings : List FeasFinding
deriving Repr, DecidableEq

/-- The per-day loop of `_validate_feasibility` (lines 707-731): the
checks run in source order and the pace-count check first unpacks
`pp["activities_per_day"]` into `lo, hi`. -/
def feasDayLoop (pp : PaceParams) :
    List ItineraryDay → List FeasFinding × List FeasFinding →
    Except PyErr (List FeasFinding × List FeasFinding)
  | [], acc => .ok acc
  | day :: rest, (iss, warn) =>
      let iss := iss ++
        (if day.activities = [] then [.noActivities day.day_number] else [])
      let warn := warn ++
        (if day.meals.length < 2 then
          [.fewMeals day.day_number day.meals.length] else [])
      let iss := iss ++
        (if day.daily_budget_spent >
            day.daily_budget_allocated * (11 / 10 : Rat) then
          [.dayBudgetExceeded day.day_number] else [])
      match unpack2 pp.activities_per_day with
      | .error e => .error e
      | .ok (lo, hi) =>
          let n := day.activities.length
          let warn := warn ++
            (if (n : Int) < lo || (n : Int) > hi then
              [.paceCountOut day.day_number n] else [])
          feasDayLoop pp rest (iss, warn)

/-- Embedding of `ItineraryService._validate_feasibility` (lines
688-754).  `settings.PACE_PARAMS[prefs["pace"]]` raises `KeyError` for an
unknown pace (modelled as `.exception`). -/
def validate_feasibility (itin : Itinerary) (prefs : FeasPrefs) :
    Except PyErr FeasResult :=
  match PACE_PARAMS.find? (fun p => p.1 = prefs.pace) with
  | none => .error .exception
  | some pp =>
      let issues0 : List FeasFinding :=
        if (itin.days.length : Int) ≠ prefs.duration_days then
          [.dayCountMismatch prefs.duration_days (itin.days.length : Int)]
        else []
      match feasDayLoop pp.2 itin.days (issues0, []) with
      | .error e => .error e
      | .ok (iss, warn) =>
          let iss := iss ++
            (if itin.total_spent > itin.total_budget * (21 / 20 : Rat) then
              [.totalBudgetExceeded] else [])
          let used :=
            (itin.days.flatMap (fun d => d.activities)).filterMap
              (fun a => a.category)
          let missing := prefs.interests.filter (fun i => !used.contains i)
          let warn := warn ++
            (if missing ≠ [] then [.interestsNotCovered missing] else [])
          .ok ⟨iss = [], iss, warn⟩

/-- The report of `_validate_database_only` (lines 756-817). -/
structure DbReport where
  valid : Bool
  feasible : Bool
  total_activities : Nat
  database_activities : Nat
  non_database_activities : Nat
  coverage_percent : Rat
  non_database_venues : List String
  issues : List String
  warnings : List String
deriving Repr, DecidableEq

/-- The nested loop of `_validate_database_only`: count activities, count
database-backed ones, and collect the non-database entries and issues in
order. -/
def dbLoop :
    List ItineraryDay → Nat × Nat × List String × List String →
    Nat × Nat × List String × List String
  | [], acc => acc
  | day :: rest, acc =>
      dbLoop rest
        (day.activities.foldl
          (fun a act =>
            let total := a.1 + 1
            if act.from_database then (total, a.2.1 + 1, a.2.2.1, a.2.2.2)
            else
              (total, a.2.1,
               a.2.2.1 ++ ["Day " ++ toString day.day_number ++ ": " ++
                           act.venue_name],
               a.2.2.2 ++ ["Day " ++ toString day.day_number ++
                           ": Activity \x27" ++ act.venue_name ++
                           "\x27 is not from database (from_database=False)"]))
          acc)

/-- Embedding of `ItineraryService._validate_database_only`: a pure
report over the itinerary, with no other inputs and no writes. -/
def validate_database_only (itin : Itinerary) : DbReport :=
  let r := dbLoop itin.days (0, 0, [], [])
  let total := r.1
  let dbActs := r.2.1
  let nonDb := r.2.2.1
  let issues := r.2.2.2
  { valid := issues = []
    feasible := issues = []
    total_activities := total
    database_activities := dbActs
    non_database_activities := nonDb.length
    coverage_percent :=
      if total > 0 then (dbActs : Rat) / (total : Rat) * 100 else 0
    non_database_venues := nonDb
    issues := issues
    warnings := [] }

/-- One run of the grounding (database-only) validator as a state-passing
operation: it produces the report and passes the itinerary through
unchanged (the Python method only reads it). -/
def runDatabaseValidator (itin : Itinerary) : DbReport × Itinerary :=
  (validate_database_only itin, itin)

/-! ## Statement helpers -/

/-- A backend attempt outcome counts as failed when it raised or returned
empty text (the code treats empty text as a failed attempt, matching the
specification notion of error that includes a malformed response). -/
def attemptFailed : Except PyErr String → Bool
  | .ok t => t = ""
  | .error _ => true

/-- Whether an outcome is a raised exception. -/
def raisedException : Except PyErr String → Bool
  | .ok _ => false
  | .error _ => true

/-! # Theorems -/

/-! ## Helper lemmas -/

theorem startsWithL_append (a b n : List Char)
    (h : startsWithL a n = true) : startsWithL (a ++ b) n = true := by
  induction n generalizing a with
  | nil => simp [startsWithL]
  | cons c t ih =>
      cases a with
      | nil => simp [startsWithL] at h
      | cons x xs =>
          simp only [startsWithL, Bool.and_eq_true] at h ⊢
          exact ⟨h.1, ih xs h.2⟩

theorem hasSub_append (a b n : List Char) (h : hasSub a n = true) :
    hasSub (a ++ b) n = true := by
  induction a with
  | nil =>
      cases n with
      | nil => cases b <;> simp [hasSub, startsWithL]
      | cons c t => simp [hasSub, startsWithL] at h
  | cons x xs ih =>
      simp only [hasSub, Bool.or_eq_true] at h ⊢
      cases h with
      | inl h1 => exact Or.inl (startsWithL_append (x :: xs) b n h1)
      | inr h2 => exact Or.inr (ih h2)

theorem mem_insertSorted (x y : String) (l : List String) :
    y ∈ insertSorted x l ↔ y = x ∨ y ∈ l := by
  induction l with
  | nil => simp [insertSorted]
  | cons h t ih =>
      by_cases hx : x ≤ h
      · simp only [insertSorted, if_pos hx, List.mem_cons]
      · simp only [insertSorted, if_neg hx, List.mem_cons, ih]
        tauto

theorem mem_sortStrings (y : String) (l : List String) :
    y ∈ sortStrings l ↔ y ∈ l := by
  induction l with
  | nil => simp [sortStrings]
  | cons h t ih => simp [sortStrings, mem_insertSorted, ih]

theorem mem_found_step (s : List Char) (k : String × String)
    (acc : List String) (x : String) :
    (x ∈ (if hasSub s k.1.toList then
            (if acc.contains k.2 then acc else acc ++ [k.2])
          else acc)) ↔
    (x ∈ acc ∨ (k.2 = x ∧ hasSub s k.1.toList = true)) := by
  by_cases hk : hasSub s k.1.toList = true
  · by_cases hc : k.2 ∈ acc
    · have hcb : acc.contains k.2 = true := by simpa using hc
      rw [if_pos hk, if_pos hcb]
      constructor
      · exact Or.inl
      · rintro (h | ⟨he, _⟩)
        · exact h
        · exact he ▸ hc
    · have hcb : ¬ (acc.contains k.2 = true) := by simpa using hc
      rw [if_pos hk, if_neg hcb]
      simp only [List.mem_append, List.mem_singleton]
      constructor
      · rintro (h | h)
        · exact Or.inl h
        · exact Or.inr ⟨h.symm, hk⟩
      · rintro (h | ⟨he, _⟩)
        · exact Or.inl h
        · exact Or.inr he.symm
  · rw [if_neg hk]
    constructor
    · exact Or.inl
    · rintro (h | ⟨_, hcon⟩)
      · exact h
      · exact absurd hcon hk

theorem mem_foundCategories_aux (s : List Char)
    (ks : List (String × String)) (acc : List String) (x : String) :
    x ∈ ks.foldl
      (fun acc p =>
        if hasSub s p.1.toList then
          (if acc.contains p.2 then acc else acc ++ [p.2])
        else acc) acc ↔
    x ∈ acc ∨ ∃ p, p ∈ ks ∧ p.2 = x ∧ hasSub s p.1.toList = true := by
  induction ks generalizing acc with
  | nil => simp
  | cons k t ih =>
      simp only [List.foldl_cons]
      rw [ih, mem_found_step]
      constructor
      · rintro ((h | ⟨he, hs2⟩) | ⟨p, hp, hpx, hps⟩)
        · exact Or.inl h
        · exact Or.inr ⟨k, List.mem_cons_self _ _, he, hs2⟩
        · exact Or.inr ⟨p, List.mem_cons_of_mem _ hp, hpx, hps⟩
      · rintro (h | ⟨p, hp, hpx, hps⟩)
        · exact Or.inl (Or.inl h)
        · rcases List.mem_cons.mp hp with hpk | hpt
          · exact Or.inl (Or.inr ⟨hpk ▸ hpx, hpk ▸ hps⟩)
          · exact Or.inr ⟨p, hpt, hpx, hps⟩

theorem mem_foundCategories (s : List Char) (x : String) :
    x ∈ foundCategories s ↔
    ∃ p, p ∈ interestKeywords ∧ p.2 = x ∧ hasSub s p.1.toList = true := by
  have h := mem_foundCategories_aux s interestKeywords [] x
  simpa [foundCategories] using h

theorem userTexts_append (a b : List Message) :
    userTexts (a ++ b) = userTexts a ++ userTexts b := by
  simp [userTexts]

theorem joinSp_append (xs ys : List String) :
    ∃ t, joinSp (xs ++ ys) = joinSp xs ++ t := by
  induction xs with
  | nil => exact ⟨joinSp ys, by simp [joinSp]⟩
  | cons s rest ih =>
      cases rest with
      | nil =>
          cases ys with
          | nil => exact ⟨"", by simp [joinSp]⟩
          | cons y yt =>
              exact ⟨" " ++ joinSp (y :: yt), by simp [joinSp, String.append_assoc]⟩
      | cons r rt =>
          obtain ⟨t, ht⟩ := ih
          refine ⟨t, ?_⟩
          show joinSp (s :: ((r :: rt) ++ ys)) = joinSp (s :: r :: rt) ++ t
          have h1 : joinSp (s :: ((r :: rt) ++ ys)) =
              s ++ " " ++ joinSp ((r :: rt) ++ ys) := by
            simp [joinSp]
          rw [h1, ht]
          simp [joinSp, String.append_assoc]

theorem combinedUserText_append (a b : List Message) :
    ∃ t, combinedUserText (a ++ b) = combinedUserText a ++ t := by
  obtain ⟨t, ht⟩ := joinSp_append (userTexts a) (userTexts b)
  refine ⟨t.toList, ?_⟩
  simp [combinedUserText, userTexts_append, ht, String.toList]

/-- C8: keyword matching over the concatenated user text is a set union,
so every interest category extracted from a transcript is still extracted
after further messages are appended — later mentions never erase earlier
interest categories. -/
theorem c8_interest_extraction_monotone (y1 y2 : Int)
    (msgs extra : List Message) (cat : String)
    (h : cat ∈ (extractedFields y1 msgs).interests) :
    cat ∈ (extractedFields y2 (msgs ++ extra)).interests := by
  have hfld : ∀ (y : Int) (ms : List Message),
      (extractedFields y ms).interests = extractInterests (combinedUserText ms) := by
    intro y ms; rfl
  rw [hfld] at h
  rw [hfld]
  rw [extractInterests, mem_sortStrings, mem_foundCategories] at h ⊢
  obtain ⟨p, hp, hpx, hps⟩ := h
  obtain ⟨t, ht⟩ := combinedUserText_append msgs extra
  refine ⟨p, hp, hpx, ?_⟩
  rw [ht, List.map_append]
  exact hasSub_append _ _ _ hps

/-- Witness for C8 at the spec's own example: the categories extracted
from `"museums"` alone are still present after appending `"and food"`. -/
theorem c8_witness :
    "Culture and History" ∈
      (extractedFields 2026
        [⟨"user", "museums"⟩, ⟨"user", "and food"⟩]).interests :=
  c8_interest_extraction_monotone 2026 2026 [⟨"user", "museums"⟩]
    [⟨"user", "and food"⟩] "Culture and History" (by decide)

/-- C9: the grounding (closed-world) validator is a pure function — run
twice on the same itinerary it returns the identical report (same valid
flag, same issue and unknown-venue lists) and leaves the itinerary
unchanged. -/
theorem c9_grounding_validator_pure (itin : Itinerary) :
    (runDatabaseValidator (runDatabaseValidator itin).2).1 =
      (runDatabaseValidator itin).1 ∧
    (runDatabaseValidator itin).2 = itin ∧
    (runDatabaseValidator (runDatabaseValidator itin).2).2 = itin :=
  ⟨rfl, rfl, rfl⟩

/-- C6: `PACE_PARAMS` does fix the exact per-day activity counts 2, 3 and
4 for relaxed, moderate and packed, but `_validate_feasibility` unpacks
that int into `lo, hi`, which raises `TypeError` on any itinerary with at
least one day — the feasibility validator cannot enforce the count (and
the check, as written, would only add a warning, not an issue). -/
theorem c6_pace_exactness_validator_bug :
    ((PACE_PARAMS.find? (fun p => p.1 = "relaxed")).map
        (fun p => p.2.activities_per_day) = some (PyVal.int 2)) ∧
    ((PACE_PARAMS.find? (fun p => p.1 = "moderate")).map
        (fun p => p.2.activities_per_day) = some (PyVal.int 3)) ∧
    ((PACE_PARAMS.find? (fun p => p.1 = "packed")).map
        (fun p => p.2.activities_per_day) = some (PyVal.int 4)) ∧
    validate_feasibility
      { days := [{ day_number := 1,
                   activities := [{ venue_name := "CN Tower" }],
                   meals := [{ meal_type := "lunch" },
                             { meal_type := "dinner" }] }] }
      ⟨1, "relaxed", []⟩ = .error .typeError :=
  ⟨rfl, rfl, rfl, rfl⟩

/-- C10: the `TripPreferences` dataclass declares no `budget`,
`budget_currency` or `booking_type` field, so the construction inside
`_extract_preferences_from_history` raises `TypeError` on every input
(and `_fetch_booking` hits the same mismatch whenever it constructs its
booking preferences); consequently `generate_enriched_itinerary` never
returns normally and the conversation service always falls through to its
legacy venues-only path. -/
theorem c10_trip_preferences_kwarg_mismatch :
    ("budget" ∉ tripPreferencesFieldNames ∧
     "budget_currency" ∉ tripPreferencesFieldNames ∧
     "booking_type" ∉ tripPreferencesFieldNames) ∧
    (∀ (y : Int) (msgs : List Message),
      extract_preferences_from_history y msgs = .error .typeError) ∧
    (∀ (o : OrchOracles) (msgs : List Message) (bt : String)
       (src : Option String),
      generate_enriched_itinerary o msgs bt src = .error .typeError) ∧
    (∀ (svc : Except PyErr BookingResult) (bt : String), bt ≠ "none" →
      fetch_booking true bt svc = .error .typeError) ∧
    (∀ (cs : ConvState) (co : ConvOracles) (msgs : List Message),
      cs.hasOrchestrator = true →
      generate_grounded_itinerary cs co msgs = legacy_itinerary cs co msgs) := by
  refine ⟨⟨by decide, by decide, by decide⟩, fun y msgs => rfl,
          fun o msgs bt src => rfl, ?_, ?_⟩
  · intro svc bt hbt
    have : (bt = "none") = False := by simp [hbt]
    simp [fetch_booking, this]
    rfl
  · intro cs co msgs hcs
    have he : generate_enriched_itinerary (orchOraclesOf cs co) msgs
        (extract_booking_info msgs).1 (extract_booking_info msgs).2 =
        .error .typeError := rfl
    simp [generate_grounded_itinerary, hcs, he]

/-- Witness for C10: a concrete booking-type and a concrete conversation
state exercise the hypotheses. -/
theorem c10_witness :
    fetch_booking true "both" (.ok ⟨false, none, none⟩) =
      .error .typeError ∧
    generate_grounded_itinerary ⟨true, false, false, true⟩
      ⟨2026, false, .ok ⟨false, []⟩, false, .ok [], false,
       .ok ⟨false, none, none⟩, false, .ok [], .ok "", .ok "", .ok [],
       .ok "", .ok "", .ok "", .ok ""⟩ [] =
    legacy_itinerary ⟨true, false, false, true⟩
      ⟨2026, false, .ok ⟨false, []⟩, false, .ok [], false,
       .ok ⟨false, none, none⟩, false, .ok [], .ok "", .ok "", .ok [],
       .ok "", .ok "", .ok "", .ok ""⟩ [] :=
  ⟨c10_trip_preferences_kwarg_mismatch.2.2.2.1 _ "both" (by decide),
   c10_trip_preferences_kwarg_mismatch.2.2.2.2 _ _ [] rfl⟩

/-- C3 counterexample: on the empty transcript (which mentions nothing)
the extractor computes city `"Toronto"`, country `"Canada"`, pace
`"moderate"` and location-preference `"downtown Toronto"` — not null — and
the subsequent construction raises `TypeError` instead of returning a
`TripPreferences`. -/
theorem c3_counterexample :
    (extractedFields 2026 []).city = "Toronto" ∧
    (extractedFields 2026 []).country = some "Canada" ∧
    (extractedFields 2026 []).pace = "moderate" ∧
    (extractedFields 2026 []).location_preference = "downtown Toronto" ∧
    extract_preferences_from_history 2026 [] = .error .typeError :=
  ⟨rfl, rfl, rfl, rfl, rfl⟩

/-- C3 (amended): fields the extractor cannot resolve are left null only
for the dates, the derived duration and the budget (and interests stay
empty); an unresolved city is defaulted to `"Toronto"` with country
`"Canada"`, an unresolved pace to `"moderate"`, and location preference to
`"downtown <city>"` — and the final `TripPreferences(...)` construction
raises `TypeError`, so no preferences record is returned at all. -/
theorem c3_extractor_defaults (y : Int) (msgs : List Message)
    (hd : extractDates y (combinedUserText msgs) = (none, none))
    (hc : extractCity (combinedUserText msgs) = none)
    (hb : extractBudget (combinedUserText msgs) = none)
    (hi : foundCategories ((combinedUserText msgs).map Char.toLower) = [])
    (hp : extractPace (combinedUserText msgs) = none) :
    extractedFields y msgs =
      { city := "Toronto", country := some "Canada", start_date := none,
        end_date := none, duration_days := none, budget := none,
        budget_currency := "CAD", interests := [], pace := "moderate",
        location_preference := "downtown Toronto", booking_type := "none",
        source_location := none } ∧
    extract_preferences_from_history y msgs = .error .typeError := by
  constructor
  · simp only [extractedFields, hd, hc, hb, hp, extractInterests, hi,
      sortStrings, deriveDurationDays]
    rfl
  · rfl

/-- Witness for C3 (amended) at the empty transcript. -/
theorem c3_witness :
    extractedFields 2026 [] =
      { city := "Toronto", country := some "Canada", start_date := none,
        end_date := none, duration_days := none, budget := none,
        budget_currency := "CAD", interests := [], pace := "moderate",
        location_preference := "downtown Toronto", booking_type := "none",
        source_location := none } ∧
    extract_preferences_from_history 2026 [] = .error .typeError :=
  c3_extractor_defaults 2026 [] (by decide) (by decide) (by decide)
    (by decide) (by decide)

theorem parseYMD_length (s : String) (x : Int × Int × Int)
    (h : parseYMD s = some x) : s.length = 10 := by
  unfold parseYMD at h
  split at h
  · rename_i heq
    have h10 : s.toList.length = 10 := by rw [heq]; rfl
    exact h10
  · exact absurd h (by simp)

theorem length_ten_ne_empty (s : String) (h : s.length = 10) : s ≠ "" := by
  intro h0
  rw [h0] at h
  simp at h

/-- C5: for valid ISO dates with `start_date ≤ end_date`, the derived
duration counts both endpoint days inclusively —
`(end − start).days + 1` — in both the date-field calculator of the NLP
extraction service and the duration derivation of the orchestrator's
preference extractor. -/
theorem c5_date_inclusivity (p : TripPreferences) (sd ed : String)
    (s e : Int × Int × Int)
    (hsd : p.start_date = some sd) (hed : p.end_date = some ed)
    (hdur : p.duration_days = none)
    (hps : parseYMD sd = some s) (hpe : parseYMD ed = some e)
    (hle : daysFromCivil s ≤ daysFromCivil e) :
    (calculate_date_fields p).duration_days =
      some (daysFromCivil e - daysFromCivil s + 1) ∧
    deriveDurationDays (some sd) (some ed) =
      some (daysFromCivil e - daysFromCivil s + 1) := by
  have hls : sd.length = 10 := parseYMD_length sd s hps
  have hle10 : ed.length = 10 := parseYMD_length ed e hpe
  have hsne : sd ≠ "" := length_ten_ne_empty sd hls
  have hene : ed ≠ "" := length_ten_ne_empty ed hle10
  have hpos : daysFromCivil e - daysFromCivil s + 1 > 0 := by omega
  constructor
  · simp only [calculate_date_fields, hsd, hed, hdur, truthyStr, truthyInt,
      hls, hle10, hps, hpe]
    simp [hsne, hene, hpos]
  · simp [deriveDurationDays, hsne, hene, hps, hpe]

/-- Witness for C5 at the spec's own example:
2026-02-28 to 2026-03-02 gives 3 days, not 2. -/
theorem c5_witness :
    (calculate_date_fields
      { start_date := some "2026-02-28",
        end_date := some "2026-03-02" }).duration_days = some 3 ∧
    deriveDurationDays (some "2026-02-28") (some "2026-03-02") = some 3 := by
  have h := c5_date_inclusivity
    { start_date := some "2026-02-28", end_date := some "2026-03-02" }
    "2026-02-28" "2026-03-02" (2026, 2, 28) (2026, 3, 2)
    rfl rfl rfl (by decide) (by decide) (by decide)
  have h3 : daysFromCivil (2026, 3, 2) - daysFromCivil (2026, 2, 28) + 1 = 3 := by
    decide
  constructor
  · have h1 := h.1
    rwa [h3] at h1
  · have h2 := h.2
    rwa [h3] at h2

theorem sortVenuesByKey_ne_nil (l : List Venue) (h : l ≠ []) :
    sortVenuesByKey l ≠ [] := by
  cases l with
  | nil => exact absurd rfl h
  | cons v t =>
      show insertVenueSorted v (sortVenuesByKey t) ≠ []
      cases hs : sortVenuesByKey t with
      | nil => simp [insertVenueSorted]
      | cons w r =>
          by_cases hlt : v.place_key < w.place_key

        <;> simp [insertVenueSorted, hlt]

/-- C2: the enrichment fan-out joins the three lookups with every
exception converted to `None` for weather and booking and to the static
Toronto fallback for venues; the venue list it yields (and its sorted
form handed to the generator) is never empty, and each field of the join
depends only on its own branch's outcome, so one failing branch never
empties the others. -/
theorem c2_enrichment_fail_soft (hw hv hb : Bool)
    (ws : Except PyErr WeatherResult) (city : Option String)
    (vs : Except PyErr (List Venue)) (bt : String)
    (bs : Except PyErr BookingResult) :
    (enrichFanOut hw ws hv city vs hb bt bs).2.1 ≠ [] ∧
    sortVenuesByKey (enrichFanOut hw ws hv city vs hb bt bs).2.1 ≠ [] ∧
    (∀ e, ws = .error e → (enrichFanOut hw ws hv city vs hb bt bs).1 = none) ∧
    (∀ e, bs = .error e →
      (enrichFanOut hw ws hv city vs hb bt bs).2.2 = none) ∧
    (∀ ws2, (enrichFanOut hw ws2 hv city vs hb bt bs).2 =
            (enrichFanOut hw ws hv city vs hb bt bs).2) ∧
    (∀ vs2, (enrichFanOut hw ws hv city vs2 hb bt bs).1 =
            (enrichFanOut hw ws hv city vs hb bt bs).1 ∧
            (enrichFanOut hw ws hv city vs2 hb bt bs).2.2 =
            (enrichFanOut hw ws hv city vs hb bt bs).2.2) ∧
    (∀ bs2, (enrichFanOut hw ws hv city vs hb bt bs2).1 =
            (enrichFanOut hw ws hv city vs hb bt bs).1 ∧
            (enrichFanOut hw ws hv city vs hb bt bs2).2.1 =
            (enrichFanOut hw ws hv city vs hb bt bs).2.1) := by
  have hvne : (enrichFanOut hw ws hv city vs hb bt bs).2.1 ≠ [] := by
    show fetch_venues hv city vs ≠ []
    unfold fetch_venues
    by_cases h : hv = true
    · cases vs with
      | ok l =>
          by_cases hl : l ≠ []
          · simp [h, hl]
          · simp [h, hl, TORONTO_FALLBACK_VENUES]
      | error e => simp [h, TORONTO_FALLBACK_VENUES]
    · simp [h, TORONTO_FALLBACK_VENUES]
  refine ⟨hvne, sortVenuesByKey_ne_nil _ hvne, ?_, ?_, fun ws2 => rfl,
          fun vs2 => ⟨rfl, rfl⟩, fun bs2 => ⟨rfl, rfl⟩⟩
  · intro e he
    show fetch_weather hw ws = none
    cases hw <;> simp [fetch_weather, he]
  · intro e he
    show (match fetch_booking hb bt bs with
          | .ok x => x
          | .error _ => none) = none
    unfold fetch_booking
    by_cases h : (!hb || bt = "none") = true
    · simp [h]
    · simp only [h, Bool.false_eq_true, if_false]
      rfl

/-- Witness for C2: with every collaborator raising, the join still
yields the non-empty fallback venue list and null weather and booking. -/
theorem c2_witness :
    (enrichFanOut true (.error .exception) true (some "Toronto")
      (.error .exception) true "both" (.error .exception)).1 = none ∧
    (enrichFanOut true (.error .exception) true (some "Toronto")
      (.error .exception) true "both" (.error .exception)).2.1 ≠ [] ∧
    (enrichFanOut true (.error .exception) true (some "Toronto")
      (.error .exception) true "both" (.error .exception)).2.2 = none := by
  have h := c2_enrichment_fail_soft true true true (.error .exception)
    (some "Toronto") (.error .exception) "both" (.error .exception)
  exact ⟨h.2.2.1 .exception rfl, h.1, h.2.2.2.1 .exception rfl⟩

theorem dedup_fold_spec (l : List String) : ∀ acc : List String,
    ∃ extra,
      List.foldl
        (fun acc nm => if nm ≠ "" && !acc.contains nm then acc ++ [nm]
                       else acc) acc l = acc ++ extra ∧
      extra.Sublist (l.filter (fun x => x ≠ "")) ∧
      (∀ x ∈ extra, x ∉ acc) ∧
      extra.Nodup ∧
      (∀ x, x ∈ acc ++ extra ↔ x ∈ acc ∨ (x ∈ l ∧ x ≠ "")) := by
  induction l with
  | nil =>
      intro acc
      exact ⟨[], by simp, by simp, by simp, by simp, by simp⟩
  | cons a l ih =>
      intro acc
      by_cases hstep : (a ≠ "" && !acc.contains a) = true
      · have hane' : a ≠ "" := by
          intro hae
          simp [hae] at hstep
        have hanotin : a ∉ acc := by
          intro hmem
          have hcb : acc.contains a = true := by simpa using hmem
          simp [hcb] at hstep
          exact hstep.2 hmem
        obtain ⟨extra, hfold, hsub, hnew, hnd, hmem⟩ := ih (acc ++ [a])
        refine ⟨a :: extra, ?_, ?_, ?_, ?_, ?_⟩
        · rw [List.foldl_cons, if_pos hstep, hfold]
          simp
        · have : (a :: l).filter (fun x => x ≠ "") =
              a :: l.filter (fun x => x ≠ "") := by simp [hane']
          rw [this]
          exact List.Sublist.cons₂ a hsub
        · intro x hx
          rcases List.mem_cons.mp hx with hxa | hxe
          · exact hxa ▸ hanotin
          · intro hxacc
            exact hnew x hxe (by simp [hxacc])
        · refine List.nodup_cons.mpr ⟨?_, hnd⟩
          intro hax
          exact hnew a hax (by simp)
        · intro x
          have h1 := hmem x
          constructor
          · intro hx
            rcases List.mem_append.mp hx with hxacc | hxcons
            · exact Or.inl hxacc
            · rcases List.mem_cons.mp hxcons with hxa | hxe
              · exact Or.inr ⟨hxa ▸ List.mem_cons_self a l, hxa ▸ hane'⟩
              · have := h1.mp (by simp [hxe])
                rcases this with hx2 | ⟨hxl, hxne⟩
                · rcases List.mem_append.mp hx2 with h3 | h3
                  · exact Or.inl h3
                  · have hxa : x = a := by simpa using h3
                    exact Or.inr ⟨hxa ▸ List.mem_cons_self a l, hxa ▸ hane'⟩
                · exact Or.inr ⟨List.mem_cons_of_mem a hxl, hxne⟩
          · intro hx
            rcases hx with hxacc | ⟨hxal, hxne⟩
            · exact List.mem_append.mpr (Or.inl hxacc)
            · rcases List.mem_cons.mp hxal with hxa | hxl
              · exact List.mem_append.mpr (Or.inr (by simp [hxa]))
              · have := h1.mpr (Or.inr ⟨hxl, hxne⟩)
                rcases List.mem_append.mp this with h3 | h3
                · rcases List.mem_append.mp h3 with h4 | h4
                  · exact List.mem_append.mpr (Or.inl h4)
                  · exact List.mem_append.mpr
                      (Or.inr (by simp [List.mem_singleton.mp h4]))
                · exact List.mem_append.mpr (Or.inr (by simp [h3]))
      · obtain ⟨extra, hfold, hsub, hnew, hnd, hmem⟩ := ih acc
        have hcase : a = "" ∨ a ∈ acc := by
          by_cases hae : a = ""
          · exact Or.inl hae
          · right
            by_contra hna
            apply hstep
            have hcb : acc.contains a = false := by simpa using hna
            simp [hae, hcb]
            exact hna
        refine ⟨extra, ?_, ?_, hnew, hnd, ?_⟩
        · rw [List.foldl_cons, if_neg hstep]
          exact hfold
        · refine hsub.trans ?_
          by_cases hae : a = ""
          · simp [hae]
          · have : (a :: l).filter (fun x => x ≠ "") =
                a :: l.filter (fun x => x ≠ "") := by
              simp [List.filter_cons, hae]
            rw [this]
            exact List.sublist_cons_self a _
        · intro x
          have h1 := hmem x
          constructor
          · intro hx
            rcases h1.mp hx with hxacc | ⟨hxl, hxne⟩
            · exact Or.inl hxacc
            · exact Or.inr ⟨List.mem_cons_of_mem a hxl, hxne⟩
          · intro hx
            rcases hx with hxacc | ⟨hxal, hxne⟩
            · exact h1.mpr (Or.inl hxacc)
            · rcases List.mem_cons.mp hxal with hxa | hxl
              · rcases hcase with hae | hain
                · exact absurd (hxa ▸ hae) hxne
                · exact h1.mpr (Or.inl (hxa ▸ hain))
              · exact h1.mpr (Or.inr ⟨hxl, hxne⟩)

/-- C7: route enrichment extracts venue names by the literal citation
pattern, keeps only the first occurrence of each distinct name in order of
appearance (no duplicates, a subsequence of the raw citation captures, and
exactly the non-empty stripped captures as a set), and returns null — not
an error — when the routing collaborator is unavailable, when fewer than
two distinct names were found, when the collaborator raises, or when it
returns no legs. -/
theorem c7_route_extraction_and_soft_fail (text : String)
    (svc : Except PyErr (List RouteLeg)) :
    (extract_venue_names_from_itinerary text).Nodup ∧
    (extract_venue_names_from_itinerary text).Sublist
      (((allCitations text).map pyStrip).filter (fun x => x ≠ "")) ∧
    (∀ x, x ∈ extract_venue_names_from_itinerary text ↔
      (x ∈ (allCitations text).map pyStrip ∧ x ≠ "")) ∧
    (fetch_routes false svc text = none) ∧
    ((extract_venue_names_from_itinerary text).length < 2 →
      fetch_routes true svc text = none) ∧
    (∀ e, svc = .error e → fetch_routes true svc text = none) ∧
    (svc = .ok [] → fetch_routes true svc text = none) := by
  have hdef : extract_venue_names_from_itinerary text =
      List.foldl
        (fun acc nm => if nm ≠ "" && !acc.contains nm then acc ++ [nm]
                       else acc)
        [] ((allCitations text).map pyStrip) := by
    rw [extract_venue_names_from_itinerary, List.foldl_map]
  obtain ⟨extra, hfold, hsub, _, hnd, hmem⟩ :=
    dedup_fold_spec ((allCitations text).map pyStrip) []
  have hex : extract_venue_names_from_itinerary text = extra := by
    rw [hdef, hfold]
    simp
  refine ⟨hex ▸ hnd, hex ▸ hsub, ?_, ?_, ?_, ?_, ?_⟩
  · intro x
    rw [hex]
    simpa using hmem x
  · simp [fetch_routes]
  · intro h
    simp [fetch_routes, h]
  · intro e he
    by_cases hlen : (extract_venue_names_from_itinerary text).length < 2
    · simp [fetch_routes, hlen]
    · simp [fetch_routes, hlen, he]
  · intro he
    by_cases hlen : (extract_venue_names_from_itinerary text).length < 2
    · simp [fetch_routes, hlen]
    · simp [fetch_routes, hlen, he]

/-- Witness for C7: a single-venue itinerary yields null routes, and so
does an unavailable maps service. -/
theorem c7_witness :
    fetch_routes true (.ok [⟨"a", "b", "transit"⟩])
      "Morning: x — CN Tower (Source: cn_tower, url)" = none ∧
    fetch_routes false (.ok [⟨"a", "b", "transit"⟩]) "t" = none :=
  ⟨(c7_route_extraction_and_soft_fail
      "Morning: x — CN Tower (Source: cn_tower, url)"
      (.ok [⟨"a", "b", "transit"⟩])).2.2.2.2.1 (by decide),
   (c7_route_extraction_and_soft_fail "t"
      (.ok [⟨"a", "b", "transit"⟩])).2.2.2.1⟩

theorem intake_turn_phase (cs : ConvState) (co : ConvOracles)
    (msgs : List Message) (r : TurnResult)
    (h : intake_turn cs co msgs = .ok r) :
    r.phase = "confirmed" ∨ r.phase = "intake" := by
  cases hllm : (conv_llm cs.useGroq cs.useGemini co.intakeGroqRes
      co.intakeGemRes (ensureSystemAtHead msgs) 1024).1 with
  | error e => simp [intake_turn, hllm] at h
  | ok t =>
      simp only [intake_turn, hllm, Except.ok.injEq] at h
      subst h
      by_cases hm : containsMarker (stripStillNeedLines t) = true
      · exact Or.inl (by simp [hm])
      · exact Or.inr (by simp [hm])

theorem lastAssistant_append_user (ms : List Message) (s : String) :
    lastAssistantContent (ms ++ [⟨"user", s⟩]) = lastAssistantContent ms := by
  induction ms with
  | nil => simp [lastAssistantContent]
  | cons m t ih =>
      show lastAssistantContent (m :: (t ++ [⟨"user", s⟩])) =
        lastAssistantContent (m :: t)
      simp only [lastAssistantContent, ih]

theorem user_is_confirming_spec (ms : List Message) (ui : Option String)
    (h : user_is_confirming ms ui = true) :
    (∃ s, ui = some s ∧ s ≠ "" ∧ matchesAffirmative (pyStrip s) = true) ∧
    (∃ c, lastAssistantContent ms = some c ∧ containsMarker c = true) := by
  cases ui with
  | none => simp [user_is_confirming] at h
  | some s =>
      simp only [user_is_confirming] at h
      by_cases hs : s = ""
      · rw [if_pos hs] at h
        exact absurd h (by simp)
      · rw [if_neg hs] at h
        by_cases ha : matchesAffirmative (pyStrip s) = true
        · rw [if_neg (by simp [ha])] at h
          cases hl : lastAssistantContent ms with
          | none =>
              rw [hl] at h
              exact absurd h (by simp)
          | some c =>
              rw [hl] at h
              exact ⟨⟨s, rfl, hs, ha⟩, ⟨c, rfl, h⟩⟩
        · rw [if_pos (by simpa using ha)] at h
          exact absurd h (by simp)

/-- C1: a turn yields phase `"itinerary"` only when both gate conditions
hold — the latest assistant message of the transcript contains the
confirmation phrase (case-insensitively) and the new user input matches
the affirmative-response pattern; in particular a bare `"yes"` after an
assistant message without the phrase cannot reach the itinerary phase. -/
theorem c1_confirmation_gate (cs : ConvState) (co : ConvOracles)
    (messages : List Message) (userInput : Option String) (r : TurnResult)
    (h : turn cs co messages userInput = .ok r)
    (hphase : r.phase = "itinerary") :
    (∃ s, userInput = some s ∧ s ≠ "" ∧
      matchesAffirmative (pyStrip s) = true) ∧
    (∃ c, lastAssistantContent messages = some c ∧
      containsMarker c = true) := by
  unfold turn at h
  by_cases hm : messages = []
  · rw [if_pos hm] at h
    simp only [Except.ok.injEq] at h
    rw [← h] at hphase
    exact absurd hphase (by simp [greetingResult])
  · rw [if_neg hm] at h
    by_cases hconf :
        user_is_confirming (appendUserInput messages userInput) userInput =
          true
    · obtain ⟨⟨s, hus, hsne, haff⟩, ⟨c, hlast, hmark⟩⟩ :=
        user_is_confirming_spec (appendUserInput messages userInput)
          userInput hconf
      refine ⟨⟨s, hus, hsne, haff⟩, ⟨c, ?_, hmark⟩⟩
      have hap : appendUserInput messages userInput =
          messages ++ [⟨"user", s⟩] := by
        rw [hus]
        simp [appendUserInput, hsne]
      rw [hap, lastAssistant_append_user] at hlast
      exact hlast
    · rw [if_neg hconf] at h
      rcases intake_turn_phase cs co (appendUserInput messages userInput)
          r h with h1 | h1 <;>
        rw [hphase] at h1 <;> exact absurd h1 (by decide)

/-- Witness for C1: a confirmed transcript plus an affirmative reply does
reach the itinerary phase with both gate conditions established. -/
theorem c1_witness :
    (∃ s, (some "yes" : Option String) = some s ∧ s ≠ "" ∧
      matchesAffirmative (pyStrip s) = true) ∧
    (∃ c, lastAssistantContent
        [⟨"assistant",
          "Great! Should I go ahead and generate your itinerary now?"⟩] =
        some c ∧ containsMarker c = true) :=
  c1_confirmation_gate
    ⟨true, false, false, false⟩
    ⟨2026, false, .ok ⟨false, []⟩, false, .ok [], false,
     .ok ⟨false, none, none⟩, false, .ok [], .ok "", .ok "", .ok [],
     .ok "itinerary text", .ok "", .ok "", .ok ""⟩
    [⟨"assistant",
      "Great! Should I go ahead and generate your itinerary now?"⟩]
    (some "yes") _ rfl rfl

/-- C4: at both LLM call sites (the orchestrator's itinerary call and the
conversation service's dual attempt used by intake and the legacy path),
with the primary backend enabled and both clients configured: Groq is
always attempted first; on a Groq exception Gemini is attempted with the
same messages, the same temperature 0.7 and the same max_tokens; every
attempt of one invocation carries identical arguments; an exception
reaches the caller exactly when every attempt made failed to produce text
(an empty response counting as a malformed-response failure); and
returned text always comes verbatim from one of the two backends, never
fabricated. -/
theorem c4_llm_primary_then_fallback (msgs imsgs : List Message)
    (useGemini iUseGemini : Bool)
    (groqRes gemRes igroqRes igemRes : Except PyErr String)
    (maxTok : Nat) :
    ((call_llm true useGemini true true groqRes gemRes msgs).2 =
        [⟨"groq", msgs, 7, 4096⟩] ∨
      (call_llm true useGemini true true groqRes gemRes msgs).2 =
        [⟨"groq", msgs, 7, 4096⟩, ⟨"gemini", msgs, 7, 4096⟩]) ∧
    (∀ e, groqRes = .error e →
      (call_llm true useGemini true true groqRes gemRes msgs).2 =
        [⟨"groq", msgs, 7, 4096⟩, ⟨"gemini", msgs, 7, 4096⟩]) ∧
    ((∃ e, (call_llm true useGemini true true groqRes gemRes msgs).1 =
        .error e) ↔
      (attemptFailed groqRes = true ∧ attemptFailed gemRes = true)) ∧
    (∀ t, (call_llm true useGemini true true groqRes gemRes msgs).1 =
        .ok t → (groqRes = .ok t ∨ gemRes = .ok t) ∧ t ≠ "") ∧
    ((conv_llm true iUseGemini igroqRes igemRes imsgs maxTok).2 =
        [⟨"groq", imsgs, 7, maxTok⟩] ∨
      (conv_llm true iUseGemini igroqRes igemRes imsgs maxTok).2 =
        [⟨"groq", imsgs, 7, maxTok⟩, ⟨"gemini", imsgs, 7, maxTok⟩]) ∧
    (∀ e, igroqRes = .error e →
      (conv_llm true iUseGemini igroqRes igemRes imsgs maxTok).2 =
        [⟨"groq", imsgs, 7, maxTok⟩, ⟨"gemini", imsgs, 7, maxTok⟩]) ∧
    ((∃ e, (conv_llm true iUseGemini igroqRes igemRes imsgs maxTok).1 =
        .error e) ↔
      (attemptFailed igroqRes = true ∧
       ((iUseGemini || raisedException igroqRes) = true →
         attemptFailed igemRes = true))) ∧
    (∀ t, (conv_llm true iUseGemini igroqRes igemRes imsgs maxTok).1 =
        .ok t → (igroqRes = .ok t ∨ igemRes = .ok t) ∧ t ≠ "") := by
  refine ⟨?_, ?_, ?_, ?_, ?_, ?_, ?_, ?_⟩
  · cases groqRes with
    | ok t =>
        by_cases ht : t = ""
        · cases gemRes with
          | ok u =>
              by_cases hu : u = "" <;>
                cases useGemini <;> simp [call_llm, ht, hu]
          | error e => cases useGemini <;> simp [call_llm, ht]
        · simp [call_llm, ht]
    | error e =>
        cases gemRes with
        | ok u =>
            by_cases hu : u = "" <;>
              cases useGemini <;> simp [call_llm, hu]
        | error e2 => cases useGemini <;> simp [call_llm]
  · intro e he
    subst he
    cases gemRes with
    | ok u =>
        by_cases hu : u = "" <;> cases useGemini <;> simp [call_llm, hu]
    | error e2 => cases useGemini <;> simp [call_llm]
  · cases groqRes with
    | ok t =>
        by_cases ht : t = ""
        · cases gemRes with
          | ok u =>
              by_cases hu : u = "" <;> cases useGemini <;>
                simp [call_llm, attemptFailed, ht, hu]
          | error e => cases useGemini <;> simp [call_llm, attemptFailed, ht]
        · simp [call_llm, attemptFailed, ht]
    | error e =>
        cases gemRes with
        | ok u =>
            by_cases hu : u = "" <;> cases useGemini <;>
              simp [call_llm, attemptFailed, hu]
        | error e2 => cases useGemini <;> simp [call_llm, attemptFailed]
  · intro t ht
    cases groqRes with
    | ok g =>
        by_cases hg : g = ""
        · cases gemRes with
          | ok u =>
              by_cases hu : u = "" <;> cases useGemini <;>
                simp_all [call_llm]
          | error e => cases useGemini <;> simp_all [call_llm]
        · simp_all [call_llm]
    | error e =>
        cases gemRes with
        | ok u =>
            by_cases hu : u = "" <;> cases useGemini <;>
              simp_all [call_llm]
        | error e2 => cases useGemini <;> simp_all [call_llm]
  · cases igroqRes with
    | ok t =>
        by_cases ht : t = ""
        · cases igemRes with
          | ok u =>
              by_cases hu : u = "" <;>
                cases iUseGemini <;> simp [conv_llm, ht, hu]
          | error e => cases iUseGemini <;> simp [conv_llm, ht]
        · simp [conv_llm, ht]
    | error e =>
        cases igemRes with
        | ok u =>
            by_cases hu : u = "" <;>
              cases iUseGemini <;> simp [conv_llm, hu]
        | error e2 => cases iUseGemini <;> simp [conv_llm]
  · intro e he
    subst he
    cases igemRes with
    | ok u =>
        by_cases hu : u = "" <;> cases iUseGemini <;> simp [conv_llm, hu]
    | error e2 => cases iUseGemini <;> simp [conv_llm]
  · cases igroqRes with
    | ok t =>
        by_cases ht : t = ""
        · cases igemRes with
          | ok u =>
              by_cases hu : u = "" <;> cases iUseGemini <;>
                simp [conv_llm, attemptFailed, raisedException, ht, hu]
          | error e =>
              cases iUseGemini <;>
                simp [conv_llm, attemptFailed, raisedException, ht]
        · simp [conv_llm, attemptFailed, raisedException, ht]
    | error e =>
        cases igemRes with
        | ok u =>
            by_cases hu : u = "" <;> cases iUseGemini <;>
              simp [conv_llm, attemptFailed, raisedException, hu]
        | error e2 =>
            cases iUseGemini <;>
              simp [conv_llm, attemptFailed, raisedException]
  · intro t ht
    cases igroqRes with
    | ok g =>
        by_cases hg : g = ""
        · cases igemRes with
          | ok u =>
              by_cases hu : u = "" <;> cases iUseGemini <;>
                simp_all [conv_llm]
          | error e => cases iUseGemini <;> simp_all [conv_llm]
        · simp_all [conv_llm]
    | error e =>
        cases igemRes with
        | ok u =>
            by_cases hu : u = "" <;> cases iUseGemini <;>
              simp_all [conv_llm]
        | error e2 => cases iUseGemini <;> simp_all [conv_llm]

/-- Witness for C4: with Groq raising and Gemini succeeding, both sites
attempt Groq first and then Gemini with identical arguments. -/
theorem c4_witness :
    (call_llm true false true true (.error .exception)
      (.ok "fallback itinerary") [⟨"user", "go"⟩]).2 =
      [⟨"groq", [⟨"user", "go"⟩], 7, 4096⟩,
       ⟨"gemini", [⟨"user", "go"⟩], 7, 4096⟩] ∧
    (conv_llm true false (.error .exception) (.ok "fallback reply")
      [⟨"user", "hi"⟩] 1024).2 =
      [⟨"groq", [⟨"user", "hi"⟩], 7, 1024⟩,
       ⟨"gemini", [⟨"user", "hi"⟩], 7, 1024⟩] :=
  ⟨(c4_llm_primary_then_fallback [⟨"user", "go"⟩] [⟨"user", "hi"⟩] false
      false (.error .exception) (.ok "fallback itinerary")
      (.error .exception) (.ok "fallback reply") 1024).2.1 .exception rfl,
   (c4_llm_primary_then_fallback [⟨"user", "go"⟩] [⟨"user", "hi"⟩] false
      false (.error .exception) (.ok "fallback itinerary")
      (.error .exception) (.ok "fallback reply") 1024).2.2.2.2.2.1
      .exception rfl⟩

end MonVoyage
